import Mathlib

/-!
# XingJue persistence/reconciliation layer — verification development

Shallow embedding of the data-persistence core of the XingJue catalog
repository:

* the client-side Reconciling Data Provider
  (`src/context/SiteDataContext.tsx`): tiered load fallback
  (remote → localStorage cache → bundled default), the emptiness
  heuristic `hasRealData`, and the optimistic write operations;
* the Remote Data Gateway is kept abstract: every provider operation is
  parameterised by the outcome (`RemoteResult`) of the gateway calls it
  performs, and the order of its side effects is recorded as an explicit
  event trace;
* the server-side Sharded Document Store (`server/db/fileStorage.js` and
  `server/db/blobStorage.js`): raw file/blob contents are modelled as
  strings, JSON (de)serialisation is modelled by an executable
  encoder/parser pair for the JSON fragment the shards use, and the
  read-time assembly (`getSiteData`, `getAllProducts`) together with the
  shard write operations is translated function by function.

Machine integers do not occur in the translated code paths; JS numbers
that are merely stored (never computed with) are modelled as `Int`.
-/

set_option autoImplicit false

namespace XingJue

/-! ## JS string primitives

`jsTrim` models `String.prototype.trim`, `strContains` models
`String.prototype.includes`.  Both are defined over `List Char` so that
facts about them reduce by computation. -/

def isJsWs (c : Char) : Bool :=
  c = ' ' || c = '\n' || c = '\t' || c = '\r'

def jsTrimList (cs : List Char) : List Char :=
  ((cs.dropWhile isJsWs).reverse.dropWhile isJsWs).reverse

def jsTrim (s : String) : String :=
  String.mk (jsTrimList s.toList)

def listContainsSub (hay pat : List Char) : Bool :=
  if pat.isPrefixOf hay then true
  else
    match hay with
    | [] => false
    | _ :: t => listContainsSub t pat

def strContains (s pat : String) : Bool :=
  listContainsSub s.toList pat.toList

/-! ## Client data model (`src/types/site.ts`)

Every user-facing text field is a map from locale code to string; the
locale type is the closed set `en | zh`, so `LocalizedText` is a record
with the two translations. -/

structure LocalizedText where
  en : String
  zh : String
deriving DecidableEq

structure SeoContent where
  title : LocalizedText
  description : LocalizedText
deriving DecidableEq

structure SiteSettings where
  siteName : LocalizedText
  tagline : LocalizedText
  logoUrl : String
  adminPassword : String
  seoDefaults : SeoContent
  twitterHandle : Option String
deriving DecidableEq

structure HeroContent where
  title : LocalizedText
  subtitle : LocalizedText
  ctaLabel : LocalizedText
  backgroundImage : String
  backgroundVideo : Option String
deriving DecidableEq

structure Advantage where
  id : String
  icon : String
  title : LocalizedText
  description : LocalizedText
deriving DecidableEq

structure Partner where
  id : String
  name : String
  logoUrl : Option String
deriving DecidableEq

structure TradeRegion where
  id : String
  name : LocalizedText
  markets : LocalizedText
deriving DecidableEq

structure Subcategory where
  id : String
  name : LocalizedText
deriving DecidableEq

structure Category where
  id : String
  name : LocalizedText
  subcategories : List Subcategory
deriving DecidableEq

structure Price where
  amount : Int
  currency : String
  unit : LocalizedText
  moq : Int
deriving DecidableEq

structure SpecEntry where
  label : LocalizedText
  value : LocalizedText
deriving DecidableEq

inductive StockStatus where
  | inStock
  | outOfStock
deriving DecidableEq

structure TranslationStatus where
  en : Bool
  zh : Bool
deriving DecidableEq

structure Product where
  id : String
  sku : String
  categoryId : String
  subcategoryId : Option String
  name : LocalizedText
  shortDescription : LocalizedText
  description : LocalizedText
  price : Price
  images : List String
  mainImage : String
  features : List LocalizedText
  specs : List SpecEntry
  certifications : List String
  stockStatus : StockStatus
  leadTime : LocalizedText
  seo : SeoContent
  translationStatus : TranslationStatus
  createdAt : String
  updatedAt : String
deriving DecidableEq

structure TimelineItem where
  year : String
  content : LocalizedText
deriving DecidableEq

structure TeamMember where
  name : String
  role : LocalizedText
  bio : LocalizedText
deriving DecidableEq

structure AboutContent where
  overview : LocalizedText
  mission : LocalizedText
  timeline : List TimelineItem
  team : List TeamMember
deriving DecidableEq

structure MapInfo where
  lat : Int
  lng : Int
  zoom : Int
deriving DecidableEq

structure SocialLink where
  platform : String
  url : String
deriving DecidableEq

structure ContactInfo where
  phone : String
  email : String
  whatsapp : String
  address : LocalizedText
  hours : LocalizedText
  map : MapInfo
  socials : List SocialLink
deriving DecidableEq

structure SeoPages where
  home : SeoContent
  products : SeoContent
  productDetail : SeoContent
  about : SeoContent
  contact : SeoContent
  admin : SeoContent
deriving DecidableEq

structure SeoSection where
  pages : SeoPages
deriving DecidableEq

structure SiteData where
  locales : List String
  defaultLocale : String
  settings : SiteSettings
  hero : HeroContent
  advantages : List Advantage
  partners : List Partner
  tradeRegions : List TradeRegion
  categories : List Category
  featuredProductIds : List String
  products : List Product
  about : AboutContent
  contact : ContactInfo
  seo : SeoSection
deriving DecidableEq

inductive InquiryStatus where
  | new
  | processing
  | closed
deriving DecidableEq

structure Inquiry where
  id : String
  productId : Option String
  name : String
  email : String
  phone : Option String
  company : Option String
  message : String
  quantity : Option Int
  locale : String
  createdAt : String
  status : InquiryStatus
deriving DecidableEq

/-- The payload of `addInquiry`: `Omit<Inquiry, 'id' | 'createdAt' | 'status'>`. -/
structure InquiryInput where
  productId : Option String
  name : String
  email : String
  phone : Option String
  company : Option String
  message : String
  quantity : Option Int
  locale : String
deriving DecidableEq

/-! ## Remote Gateway outcomes

Every `api.*` call either resolves with a value or rejects with a JS
error.  `JsError.isTypeError` records whether the rejection was a
`TypeError` (the `instanceof TypeError` checks in `importSiteData`
distinguish network/CORS failures from ordinary `Error`s). -/

structure JsError where
  isTypeError : Bool
  message : String
deriving DecidableEq

inductive RemoteResult (α : Type) where
  | ok (value : α)
  | err (e : JsError)
deriving DecidableEq

def RemoteResult.isOk {α : Type} : RemoteResult α → Bool
  | .ok _ => true
  | .err _ => false

/-! ## Reconciling Data Provider (`src/context/SiteDataContext.tsx`)

The provider's persistent collaborators are modelled explicitly:

* `Cache` is the localStorage pair (`xj-site-data-v1`,
  `xj-inquiries-v1`).  A stored value that is missing or fails
  `JSON.parse` is treated as absent (`getStoredData` returns `null`,
  `getStoredInquiries` returns `[]`), so each slot is an `Option`.
* the in-memory React state is `ClientState`
  (`siteData` / `inquiries` / `error`). -/

structure Cache where
  data : Option SiteData
  inquiries : Option (List Inquiry)
deriving DecidableEq

/-- `getStoredInquiries`: missing or corrupt stored list reads as `[]`. -/
def getStoredInquiries (cache : Cache) : List Inquiry :=
  cache.inquiries.getD []

structure ClientState where
  siteData : SiteData
  inquiries : List Inquiry
  error : Option String
deriving DecidableEq

/-- `hasRealData`: a document counts as real when the trimmed English
site name is non-empty, or the trimmed English hero title is non-empty,
or the product list is non-empty. -/
def hasRealData (data : SiteData) : Bool :=
  !(jsTrim data.settings.siteName.en == "") ||
  !(jsTrim data.hero.title.en == "") ||
  decide (0 < data.products.length)

/-- The fallback tail shared by both branches of `loadData` (the code
duplicates this block verbatim in the heuristic-empty branch and in the
`catch` branch; only the `setError` messages differ, so they are passed
in as parameters): try the cached document, else commit the default
dataset and mirror it into the cache (the cached inquiry slot is left
untouched in that case). -/
def loadFallback (cache : Cache) (defaultData : SiteData)
    (msgCached msgDefault : String) : ClientState × Cache :=
  match cache.data with
  | some stored =>
      if hasRealData stored then
        (⟨stored, getStoredInquiries cache, some msgCached⟩, cache)
      else
        (⟨defaultData, [], some msgDefault⟩, { cache with data := some defaultData })
  | none => (⟨defaultData, [], some msgDefault⟩, { cache with data := some defaultData })

/-- `loadData`, parameterised by the joint outcome of
`Promise.all([api.getSiteData(), api.getInquiries()])`. -/
def loadData (remote : RemoteResult (SiteData × List Inquiry))
    (cache : Cache) (defaultData : SiteData) : ClientState × Cache :=
  match remote with
  | .ok (siteDataResponse, inquiriesResponse) =>
      if hasRealData siteDataResponse then
        (⟨siteDataResponse, inquiriesResponse, none⟩,
         ⟨some siteDataResponse, some inquiriesResponse⟩)
      else
        loadFallback cache defaultData
          "Using cached data (server returned empty data)"
          "Using default data (server returned empty data)"
  | .err e =>
      loadFallback cache defaultData
        ("Using cached data (server unavailable: " ++ e.message ++ ")")
        ("Using default data (server and cache unavailable: " ++ e.message ++ ")")

/-- The pure product-list update inside `upsertProduct`:
`findIndex` by id; found → `map` replacing the matching entries in
place; not found → prepend. -/
def upsertProductList (product : Product) (products : List Product) : List Product :=
  if (products.findIdx? fun item => item.id == product.id).isSome then
    products.map fun item => if item.id == product.id then product else item
  else
    product :: products

/-- The pure product-list update inside `deleteProduct`. -/
def deleteProductList (productId : String) (products : List Product) : List Product :=
  products.filter fun item => !(item.id == productId)

/-- The pure inquiry-list update inside `updateInquiryStatus`. -/
def setInquiryStatusList (id : String) (status : InquiryStatus)
    (inquiries : List Inquiry) : List Inquiry :=
  inquiries.map fun item => if item.id == id then { item with status := status } else item

/-! ### Write operations with effect traces

Each provider write is a pure function of the outcomes of the remote
calls it makes.  The order in which it touches the in-memory state
(`commitData`), the Local Cache (`saveCache`) and the Remote Gateway
(`remote name`) is recorded as a trace; `result` is `.error` exactly
when the returned promise rejects. -/

inductive Ev where
  | commitData
  | saveCache
  | remote (name : String)
deriving DecidableEq

instance {ε α : Type} [DecidableEq ε] [DecidableEq α] : DecidableEq (Except ε α) := fun x y =>
  match x, y with
  | .ok a, .ok b =>
      if h : a = b then .isTrue (by rw [h]) else .isFalse (by simp [h])
  | .ok _, .error _ => .isFalse (by simp)
  | .error _, .ok _ => .isFalse (by simp)
  | .error e, .error f =>
      if h : e = f then .isTrue (by rw [h]) else .isFalse (by simp [h])

structure DataWriteResult where
  result : Except String Unit
  trace : List Ev
  state : SiteData
  cache : Cache
deriving DecidableEq

structure InquiryWriteResult where
  result : Except String Unit
  trace : List Ev
  inquiries : List Inquiry
  cache : Cache
deriving DecidableEq

/-- `setSiteData`: commit, save to cache, then try
`api.updateSiteData`; a remote failure is logged and swallowed. -/
def setSiteDataOp (data : SiteData) (_remotePut : RemoteResult Unit)
    (_st : SiteData) (cache : Cache) : DataWriteResult :=
  { result := .ok ()
    trace := [.commitData, .saveCache, .remote "updateSiteData"]
    state := data
    cache := { cache with data := some data } }

/-- `upsertProduct`: try `api.upsertProduct` FIRST; on success commit
and save; on failure recompute the same local update, commit, save and
try a full `api.updateSiteData` whose failure is also swallowed. -/
def upsertProductOp (product : Product)
    (remoteUpsert _remotePut : RemoteResult Unit)
    (st : SiteData) (cache : Cache) : DataWriteResult :=
  let next : SiteData := { st with products := upsertProductList product st.products }
  match remoteUpsert with
  | .ok _ =>
      { result := .ok ()
        trace := [.remote "upsertProduct", .commitData, .saveCache]
        state := next
        cache := { cache with data := some next } }
  | .err _ =>
      { result := .ok ()
        trace := [.remote "upsertProduct", .commitData, .saveCache, .remote "updateSiteData"]
        state := next
        cache := { cache with data := some next } }

/-- `deleteProduct`: same remote-first shape as `upsertProduct`. -/
def deleteProductOp (productId : String)
    (remoteDelete _remotePut : RemoteResult Unit)
    (st : SiteData) (cache : Cache) : DataWriteResult :=
  let next : SiteData := { st with products := deleteProductList productId st.products }
  match remoteDelete with
  | .ok _ =>
      { result := .ok ()
        trace := [.remote "deleteProduct", .commitData, .saveCache]
        state := next
        cache := { cache with data := some next } }
  | .err _ =>
      { result := .ok ()
        trace := [.remote "deleteProduct", .commitData, .saveCache, .remote "updateSiteData"]
        state := next
        cache := { cache with data := some next } }

/-- `addInquiry`: try `api.createInquiry` first.  On success the
server-returned inquiry is prepended; on failure an inquiry is built
locally from the payload with a freshly generated id (`genId`), the
current timestamp (`now`) and status `new`, and prepended.  Both
branches write the new list to the cache and neither rejects. -/
def addInquiryOp (input : InquiryInput) (remoteCreate : RemoteResult Inquiry)
    (genId now : String) (prev : List Inquiry) (cache : Cache) : InquiryWriteResult :=
  match remoteCreate with
  | .ok serverInquiry =>
      let next := serverInquiry :: prev
      { result := .ok ()
        trace := [.remote "createInquiry", .commitData, .saveCache]
        inquiries := next
        cache := { cache with inquiries := some next } }
  | .err _ =>
      let localInquiry : Inquiry :=
        { id := genId
          productId := input.productId
          name := input.name
          email := input.email
          phone := input.phone
          company := input.company
          message := input.message
          quantity := input.quantity
          locale := input.locale
          createdAt := now
          status := .new }
      let next := localInquiry :: prev
      { result := .ok ()
        trace := [.remote "createInquiry", .commitData, .saveCache]
        inquiries := next
        cache := { cache with inquiries := some next } }

/-- `updateInquiryStatus`: commit and save first, then try
`api.updateInquiryStatus`; a remote failure is swallowed. -/
def updateInquiryStatusOp (id : String) (status : InquiryStatus)
    (_remotePatch : RemoteResult Unit)
    (prev : List Inquiry) (cache : Cache) : InquiryWriteResult :=
  let next := setInquiryStatusList id status prev
  { result := .ok ()
    trace := [.commitData, .saveCache, .remote "updateInquiryStatus"]
    inquiries := next
    cache := { cache with inquiries := some next } }

/-! ### `importSiteData`

The import flow talks to the server FIRST and only commits the local
state after the server accepted the document (directly, or through the
chunked partial-update fallback taken for size-related failures); any
other remote failure makes the promise reject without touching the
local state.  After a successful remote save the provider commits,
saves to the cache and runs `refreshData()` (a full `loadData`), whose
outcome is the `loadRemote` parameter.  The twelve per-section PATCHes
plus the batched product POSTs of the fallback are aggregated into the
single outcome `partialRes` and the single trace event
`remote "partialUpdates"`. -/

/-- The `is413Error` test of the no-file branch of `importSiteData`. -/
def importIs413 (msg : String) : Bool :=
  strContains msg "413" || strContains msg "Content Too Large" ||
  strContains msg "Request too large"

/-- The `isNetworkError` test of the no-file branch. -/
def importIsNetwork (e : JsError) : Bool :=
  e.isTypeError && (strContains e.message "Failed to fetch" ||
    strContains e.message "NetworkError")

/-- The `is413Error` test of the file-upload branch. -/
def uploadIs413 (msg : String) : Bool :=
  strContains msg "413" || strContains msg "Content Too Large" ||
  strContains msg "文件太大"

/-- The `isNetworkError` test of the file-upload branch. -/
def uploadIsNetwork (e : JsError) : Bool :=
  e.isTypeError && (strContains e.message "Failed to fetch" ||
    strContains e.message "网络错误")

structure ImportResult where
  result : Except String Unit
  trace : List Ev
  client : ClientState
  cache : Cache
deriving DecidableEq

/-- Tail of every successful import: `setSiteDataState(data)`,
`saveDataToStorage(data)`, then `await refreshData()`. -/
def importCommitAndRefresh (data : SiteData) (headTrace : List Ev)
    (loadRemote : RemoteResult (SiteData × List Inquiry))
    (cache : Cache) (defaultData : SiteData) : ImportResult :=
  let cache1 : Cache := { cache with data := some data }
  let res := loadData loadRemote cache1 defaultData
  { result := .ok ()
    trace := headTrace ++ [.commitData, .saveCache, .remote "load"]
    client := res.1
    cache := res.2 }

/-- A rejected import: the outer `catch` records the message via
`setError` and rethrows; neither the in-memory document nor the cache
has been written. -/
def importReject (msg : String) (headTrace : List Ev)
    (client : ClientState) (cache : Cache) : ImportResult :=
  { result := .error msg
    trace := headTrace
    client := { client with error := some msg }
    cache := cache }

def importSiteDataOp (data : SiteData) (hasFile : Bool)
    (uploadRes putRes partialRes : RemoteResult Unit)
    (loadRemote : RemoteResult (SiteData × List Inquiry))
    (client : ClientState) (cache : Cache) (defaultData : SiteData) : ImportResult :=
  if hasFile then
    match uploadRes with
    | .ok _ =>
        importCommitAndRefresh data [.remote "uploadSiteData"] loadRemote cache defaultData
    | .err uploadError =>
        if uploadIs413 uploadError.message || uploadIsNetwork uploadError then
          match partialRes with
          | .ok _ =>
              importCommitAndRefresh data
                [.remote "uploadSiteData", .remote "partialUpdates"] loadRemote cache defaultData
          | .err partialError =>
              importReject ("文件上传失败，且部分更新也失败: " ++ partialError.message)
                [.remote "uploadSiteData", .remote "partialUpdates"] client cache
        else
          importReject ("文件上传失败: " ++ uploadError.message)
            [.remote "uploadSiteData"] client cache
  else
    match putRes with
    | .ok _ =>
        importCommitAndRefresh data [.remote "updateSiteData"] loadRemote cache defaultData
    | .err serverError =>
        if importIs413 serverError.message || importIsNetwork serverError then
          match partialRes with
          | .ok _ =>
              importCommitAndRefresh data
                [.remote "updateSiteData", .remote "partialUpdates"] loadRemote cache defaultData
          | .err partialError =>
              importReject ("Failed to save to server (data too large): " ++ partialError.message)
                [.remote "updateSiteData", .remote "partialUpdates"] client cache
        else
          importReject ("Failed to save to server: " ++ serverError.message)
            [.remote "updateSiteData"] client cache

/-! ## JSON values

The server-side shards hold raw text; the stores call `JSON.stringify`
and `JSON.parse` on it.  `Json` models a JS value; the executable
encoder and parser below model the JSON fragment these shards use
(integer numerals, no `\uXXXX` escapes; raw control characters inside
string literals are accepted).  Fractional or exponent numerals make
the modelled parser fail — no shard of this repository stores them. -/

inductive Json where
  | null
  | bool (b : Bool)
  | num (n : Int)
  | str (s : String)
  | arr (elements : List Json)
  | obj (fields : List (String × Json))

mutual

def Json.beq : Json → Json → Bool
  | .null, .null => true
  | .bool a, .bool b => a == b
  | .num a, .num b => a == b
  | .str a, .str b => a == b
  | .arr a, .arr b => jsonBeqList a b
  | .obj a, .obj b => jsonBeqFields a b
  | _, _ => false

def jsonBeqList : List Json → List Json → Bool
  | [], [] => true
  | x :: xs, y :: ys => Json.beq x y && jsonBeqList xs ys
  | _, _ => false

def jsonBeqFields : List (String × Json) → List (String × Json) → Bool
  | [], [] => true
  | (k1, v1) :: xs, (k2, v2) :: ys => k1 == k2 && Json.beq v1 v2 && jsonBeqFields xs ys
  | _, _ => false

end

mutual

theorem jsonBeq_iff (a b : Json) : Json.beq a b = true ↔ a = b := by
  cases a <;> cases b <;> simp [Json.beq]
  case arr.arr xs ys => exact jsonBeqList_iff xs ys
  case obj.obj fs gs => exact jsonBeqFields_iff fs gs

theorem jsonBeqList_iff (xs ys : List Json) : jsonBeqList xs ys = true ↔ xs = ys := by
  cases xs <;> cases ys <;> simp [jsonBeqList]
  case cons.cons x xs y ys =>
    rw [jsonBeq_iff x y, jsonBeqList_iff xs ys]

theorem jsonBeqFields_iff (fs gs : List (String × Json)) :
    jsonBeqFields fs gs = true ↔ fs = gs := by
  cases fs <;> cases gs <;> simp [jsonBeqFields]
  case cons.cons f fs g gs =>
    rw [jsonBeq_iff f.2 g.2, jsonBeqFields_iff fs gs]
    simp [Prod.ext_iff, and_assoc]

end

instance : DecidableEq Json := fun a b => decidable_of_iff _ (jsonBeq_iff a b)

/-- JS truthiness of a value. -/
def jsTruthy : Json → Bool
  | .null => false
  | .bool b => b
  | .num n => !(n == 0)
  | .str s => !(s == "")
  | .arr _ => true
  | .obj _ => true

/-- `a || b`. -/
def jsOr (a b : Json) : Json := if jsTruthy a then a else b

/-- Assoc-list update with JS object semantics: assigning an existing
key keeps its position, a new key is appended. -/
def setAssoc {β : Type} (l : List (String × β)) (k : String) (v : β) : List (String × β) :=
  if l.any fun kv => kv.1 == k then
    l.map fun kv => if kv.1 == k then (k, v) else kv
  else l ++ [(k, v)]

/-- Assoc-list lookup (first matching key). -/
def lookupAssoc {β : Type} : List (String × β) → String → Option β
  | [], _ => none
  | kv :: t, k => if kv.1 == k then some kv.2 else lookupAssoc t k

def objLookup (fields : List (String × Json)) (k : String) : Option Json :=
  lookupAssoc fields k

/-- Property access `j[k]` (a missing property is modelled as `null`). -/
def jsObjGet (j : Json) (k : String) : Json :=
  match j with
  | .obj fields =>
      match objLookup fields k with
      | some v => v
      | none => .null
  | _ => .null

/-! ### `JSON.stringify` -/

def escList : List Char → List Char
  | [] => []
  | c :: rest =>
      (if c = '"' then ['\\', '"']
       else if c = '\\' then ['\\', '\\']
       else if c = '\n' then ['\\', 'n']
       else if c = '\t' then ['\\', 't']
       else if c = '\r' then ['\\', 'r']
       else [c]) ++ escList rest

def quoteStr (s : String) : String :=
  String.mk ('"' :: escList s.toList ++ ['"'])

mutual

/-- `JSON.stringify(v)` (no indent). -/
def stringifyCompact : Json → String
  | .null => "null"
  | .bool b => if b then "true" else "false"
  | .num n => toString n
  | .str s => quoteStr s
  | .arr xs => "[" ++ stringifyItemsC xs ++ "]"
  | .obj fs => "\x7b" ++ stringifyFieldsC fs ++ "\x7d"

def stringifyItemsC : List Json → String
  | [] => ""
  | [x] => stringifyCompact x
  | x :: y :: rest => stringifyCompact x ++ "," ++ stringifyItemsC (y :: rest)

def stringifyFieldsC : List (String × Json) → String
  | [] => ""
  | [(k, v)] => quoteStr k ++ ":" ++ stringifyCompact v
  | (k, v) :: f :: rest =>
      quoteStr k ++ ":" ++ stringifyCompact v ++ "," ++ stringifyFieldsC (f :: rest)

end

def spacesStr (n : Nat) : String := String.mk (List.replicate n ' ')

mutual

/-- `JSON.stringify(v, null, 2)`; `ind` is the indent of the items of
the enclosing container. -/
def stringifyPretty (ind : Nat) : Json → String
  | .arr [] => "[]"
  | .arr (x :: xs) =>
      "[\n" ++ prettyItems (ind + 2) (x :: xs) ++ "\n" ++ spacesStr ind ++ "]"
  | .obj [] => "\x7b\x7d"
  | .obj (f :: fs) =>
      "\x7b\n" ++ prettyFields (ind + 2) (f :: fs) ++ "\n" ++ spacesStr ind ++ "\x7d"
  | .null => "null"
  | .bool b => if b then "true" else "false"
  | .num n => toString n
  | .str s => quoteStr s

def prettyItems (ind : Nat) : List Json → String
  | [] => ""
  | [x] => spacesStr ind ++ stringifyPretty ind x
  | x :: y :: rest =>
      spacesStr ind ++ stringifyPretty ind x ++ ",\n" ++ prettyItems ind (y :: rest)

def prettyFields (ind : Nat) : List (String × Json) → String
  | [] => ""
  | [(k, v)] => spacesStr ind ++ quoteStr k ++ ": " ++ stringifyPretty ind v
  | (k, v) :: f :: rest =>
      spacesStr ind ++ quoteStr k ++ ": " ++ stringifyPretty ind v ++ ",\n" ++
        prettyFields ind (f :: rest)

end

/-! ### `JSON.parse` -/

def unescapeChar (c : Char) : Option Char :=
  if c = '"' then some '"'
  else if c = '\\' then some '\\'
  else if c = '/' then some '/'
  else if c = 'n' then some '\n'
  else if c = 't' then some '\t'
  else if c = 'r' then some '\r'
  else if c = 'b' then some (Char.ofNat 8)
  else if c = 'f' then some (Char.ofNat 12)
  else none

/-- Body of a string literal, after the opening quote. -/
def parseStringBody : List Char → Option (List Char × List Char)
  | [] => none
  | c :: rest =>
      if c = '"' then some ([], rest)
      else if c = '\\' then
        match rest with
        | [] => none
        | e :: rest2 =>
            match unescapeChar e with
            | some u => (parseStringBody rest2).map fun p => (u :: p.1, p.2)
            | none => none
      else (parseStringBody rest).map fun p => (c :: p.1, p.2)

def digitsToNat (acc : Nat) : List Char → Nat × List Char
  | [] => (acc, [])
  | c :: rest =>
      if c.isDigit then digitsToNat (acc * 10 + (c.toNat - 48)) rest
      else (acc, c :: rest)

/-- A following `.`, `e` or `E` would start a fractional/exponent part,
which is outside the modelled fragment. -/
def fractionFollows : List Char → Bool
  | [] => false
  | c :: _ => c = '.' || c = 'e' || c = 'E'

def parseNumber (cs : List Char) : Option (Json × List Char) :=
  match cs with
  | '-' :: c :: rest =>
      if c.isDigit then
        let p := digitsToNat 0 (c :: rest)
        if fractionFollows p.2 then none else some (.num (-(p.1 : Int)), p.2)
      else none
  | c :: _ =>
      if c.isDigit then
        let p := digitsToNat 0 cs
        if fractionFollows p.2 then none else some (.num (p.1 : Int), p.2)
      else none
  | [] => none

mutual

def parseValue : Nat → List Char → Option (Json × List Char)
  | 0, _ => none
  | fuel + 1, cs =>
      match cs.dropWhile isJsWs with
      | [] => none
      | '"' :: rest => (parseStringBody rest).map fun p => (.str (String.mk p.1), p.2)
      | '[' :: rest => parseArrayRest fuel rest
      | '\x7b' :: rest => parseObjRest fuel rest
      | 't' :: 'r' :: 'u' :: 'e' :: r => some (.bool true, r)
      | 'f' :: 'a' :: 'l' :: 's' :: 'e' :: r => some (.bool false, r)
      | 'n' :: 'u' :: 'l' :: 'l' :: r => some (.null, r)
      | c :: rest =>
          if c = '-' || c.isDigit then parseNumber (c :: rest) else none

def parseArrayRest : Nat → List Char → Option (Json × List Char)
  | 0, _ => none
  | fuel + 1, cs =>
      match cs.dropWhile isJsWs with
      | ']' :: r => some (.arr [], r)
      | cs2 => parseElems fuel cs2 []

def parseElems : Nat → List Char → List Json → Option (Json × List Char)
  | 0, _, _ => none
  | fuel + 1, cs, acc =>
      match parseValue fuel cs with
      | none => none
      | some (v, r) =>
          match r.dropWhile isJsWs with
          | ',' :: r2 => parseElems fuel r2 (acc ++ [v])
          | ']' :: r2 => some (.arr (acc ++ [v]), r2)
          | _ => none

def parseObjRest : Nat → List Char → Option (Json × List Char)
  | 0, _ => none
  | fuel + 1, cs =>
      match cs.dropWhile isJsWs with
      | '\x7d' :: r => some (.obj [], r)
      | cs2 => parseFields fuel cs2 []

def parseFields : Nat → List Char → List (String × Json) → Option (Json × List Char)
  | 0, _, _ => none
  | fuel + 1, cs, acc =>
      match cs with
      | '"' :: rest =>
          match parseStringBody rest with
          | none => none
          | some (k, r) =>
              match r.dropWhile isJsWs with
              | ':' :: r2 =>
                  match parseValue fuel r2 with
                  | none => none
                  | some (v, r3) =>
                      match r3.dropWhile isJsWs with
                      | ',' :: r4 =>
                          parseFields fuel (r4.dropWhile isJsWs) (setAssoc acc (String.mk k) v)
                      | '\x7d' :: r4 => some (.obj (setAssoc acc (String.mk k) v), r4)
                      | _ => none
              | _ => none
      | _ => none

end

def jsonParse (s : String) : Option Json :=
  match parseValue (2 * s.length + 4) s.toList with
  | some (v, rest) => if (rest.dropWhile isJsWs).isEmpty then some v else none
  | none => none

/-! ## Deep merge (`deepMerge` inside `fileStorage.getSiteData`)

`deepMerge(target, source)`: a falsy or non-object source returns the
target; otherwise the target is spread and every enumerable key of the
source is assigned on top, recursing when the source value is a truthy
non-array object (`result[key] || \x7b\x7d` supplies the recursion
target).  A source array also passes the `typeof` test: its indices are
enumerated as keys, producing a plain object. -/

/-- `result[key] || \x7b\x7d`. -/
def objLookupOrEmpty (fields : List (String × Json)) (k : String) : Json :=
  match objLookup fields k with
  | some v => if jsTruthy v then v else .obj []
  | none => .obj []

/-- The `\x7b...target\x7d` spread / `for key in source` view of a value:
objects expose their fields, arrays their indexed elements, primitives
nothing. -/
def jsObjFields : Json → List (String × Json)
  | .obj fs => fs
  | .arr xs => xs.enum.map fun p => (toString p.1, p.2)
  | _ => []

mutual

def deepMerge (target source : Json) : Json :=
  match source with
  | .obj fs => .obj (mergeFields (jsObjFields target) fs)
  | .arr xs => .obj (mergeArr (jsObjFields target) 0 xs)
  | _ => target

def mergeFields (res : List (String × Json)) : List (String × Json) → List (String × Json)
  | [] => res
  | (k, v) :: rest =>
      match v with
      | .obj vfs =>
          mergeFields (setAssoc res k (deepMerge (objLookupOrEmpty res k) (.obj vfs))) rest
      | _ => mergeFields (setAssoc res k v) rest

def mergeArr (res : List (String × Json)) (i : Nat) : List Json → List (String × Json)
  | [] => res
  | v :: rest =>
      match v with
      | .obj vfs =>
          mergeArr (setAssoc res (toString i) (deepMerge (objLookupOrEmpty res (toString i)) (.obj vfs)))
            (i + 1) rest
      | _ => mergeArr (setAssoc res (toString i) v) (i + 1) rest

end

/-! ## File-backed Sharded Document Store (`server/db/fileStorage.js`)

The data directory is a flat map from relative file path to raw file
text, plus the set of subdirectories that exist (`existsSync` on a
directory).  Filesystem write errors are not modelled (`writeFileSync`
is assumed to succeed); every read-side failure mode — missing file,
empty file, unparsable JSON — is modelled exactly as the `try/catch`
blocks handle it. -/

structure FsState where
  files : List (String × String)
  dirs : List String
deriving DecidableEq

def lookupFile (st : FsState) (name : String) : Option String :=
  lookupAssoc st.files name

def setFile (st : FsState) (name content : String) : FsState :=
  { st with files := setAssoc st.files name content }

def eraseFile (st : FsState) (name : String) : FsState :=
  { st with files := st.files.filter fun kv => !(kv.1 == name) }

def existsFile (st : FsState) (name : String) : Bool :=
  (lookupFile st name).isSome

def existsDir (st : FsState) (d : String) : Bool :=
  st.dirs.contains d

/-- Split a character list at `/` separators. -/
def splitSlash : List Char → List (List Char)
  | [] => [[]]
  | c :: rest =>
      let r := splitSlash rest
      if c = '/' then [] :: r
      else
        match r with
        | h :: t => (c :: h) :: t
        | [] => [[c]]

def parentDir (filename : String) : Option String :=
  let parts := (splitSlash filename.toList).map String.mk
  if parts.length ≤ 1 then none
  else some (String.intercalate "/" parts.dropLast)

/-- `writeJsonFile` creates the parent directory of the target when it
is missing (`mkdirSync(dirPath, recursive)`). -/
def ensureParentDir (st : FsState) (filename : String) : FsState :=
  match parentDir filename with
  | some d => if existsDir st d then st else { st with dirs := st.dirs ++ [d] }
  | none => st

def headIsChar (s : String) (c : Char) : Bool :=
  match s.toList with
  | [] => false
  | c0 :: _ => c0 == c

def lastIsChar (s : String) (c : Char) : Bool :=
  match s.toList.getLast? with
  | some c0 => c0 == c
  | none => false

/-- `s.slice(1, -1)`. -/
def sliceDropEnds (s : String) : String :=
  String.mk ((s.toList.drop 1).dropLast)

/-- `s.replace(/^["']|["']$/g, '')`: one leading and one trailing quote
character (double or single) are removed. -/
def stripOuterQuoteChars (s : String) : String :=
  let l := s.toList
  let l1 := match l with
    | c :: t => if c == '"' || c == '\'' then t else l
    | [] => []
  let l2 := match l1.getLast? with
    | some c => if c == '"' || c == '\'' then l1.dropLast else l1
    | none => l1
  String.mk l2

/-- The `defaultLocale.json` special case of `readJsonFile` (the same
block appears verbatim in `readJsonBlob`): parse, unwrap a
double-serialised string, and on parse failure fall back to stripping
quotes from the raw content. -/
def readDefaultLocale (content : String) (defaultValue : Json) : Json :=
  match jsonParse content with
  | some (.str parsed) =>
      let trimmed := jsTrim parsed
      if headIsChar trimmed '"' && lastIsChar trimmed '"' && decide (2 < trimmed.length) then
        match jsonParse parsed with
        | some (.str doubleParsed) => .str doubleParsed
        | some _ => .str parsed
        | none => .str (sliceDropEnds parsed)
      else .str parsed
  | some v => v
  | none =>
      let t := stripOuterQuoteChars (jsTrim content)
      if strContains t "\\\"" then
        match jsonParse (String.mk ('"' :: t.toList ++ ['"'])) with
        | some v => v
        | none => if t == "" then defaultValue else .str t
      else if t == "" then defaultValue else .str t

/-- The body of `readJsonFile` once the raw file text is in hand. -/
def readJsonContent (raw : String) (filename : String) (defaultValue : Json) : Json :=
  let content := jsTrim raw
  if content == "" then defaultValue
  else if filename == "defaultLocale.json" then readDefaultLocale content defaultValue
  else
    match jsonParse content with
    | some v => v
    | none => defaultValue

def readJsonFile (st : FsState) (filename : String) (defaultValue : Json) : Json :=
  match lookupFile st filename with
  | none => defaultValue
  | some raw => readJsonContent raw filename defaultValue

/-- The file text both `writeJsonFile` and `writeJsonBlob` store for a
shard: the unwrapped compact scalar for a string-valued
`defaultLocale.json`, pretty-printed JSON (indent 2) otherwise. -/
def writeFileContent (filename : String) (data : Json) : String :=
  if filename == "defaultLocale.json" then
    match data with
    | .str s =>
        stringifyCompact (.str (match jsonParse s with
          | some (.str parsed) => parsed
          | _ => s))
    | _ => stringifyPretty 0 data
  else stringifyPretty 0 data

def writeJsonFile (st : FsState) (filename : String) (data : Json) : FsState :=
  setFile (ensureParentDir st filename) filename (writeFileContent filename data)

/-! ### Default skeletons (`getDefaultSettings` …) -/

def emptyLocJson : Json := .obj [("en", .str ""), ("zh", .str "")]

def seoContentJson : Json := .obj [("title", emptyLocJson), ("description", emptyLocJson)]

def defaultSettingsJson : Json :=
  .obj [("siteName", emptyLocJson), ("tagline", emptyLocJson), ("logoUrl", .str ""),
        ("adminPassword", .str ""), ("seoDefaults", seoContentJson), ("twitterHandle", .str "")]

def defaultHeroJson : Json :=
  .obj [("title", emptyLocJson), ("subtitle", emptyLocJson), ("ctaLabel", emptyLocJson),
        ("backgroundImage", .str ""), ("backgroundVideo", .str "")]

def defaultContactJson : Json :=
  .obj [("phone", .str ""), ("email", .str ""), ("whatsapp", .str ""),
        ("address", emptyLocJson), ("hours", emptyLocJson),
        ("map", .obj [("lat", .num 0), ("lng", .num 0), ("zoom", .num 10)]),
        ("socials", .arr [])]

def defaultAboutJson : Json := .obj [("overview", emptyLocJson)]

def defaultSeoJson : Json :=
  .obj [("pages", .obj [("home", seoContentJson), ("products", seoContentJson),
        ("about", seoContentJson), ("contact", seoContentJson), ("admin", seoContentJson)])]

/-! ### Products and document assembly -/

mutual

/-- Template-literal conversion of a JS value to a string
(`products/$\x7bid\x7d.json`); a missing property is modelled as `null`. -/
def jsToPropertyString : Json → String
  | .str s => s
  | .num n => toString n
  | .bool b => if b then "true" else "false"
  | .null => "null"
  | .arr xs => jsToPropItems xs
  | .obj _ => "[object Object]"

/-- `Array.prototype.toString`: elements joined with commas, a `null`
element contributing the empty string. -/
def jsToPropItems : List Json → String
  | [] => ""
  | [x] => (match x with | .null => "" | v => jsToPropertyString v)
  | x :: y :: rest =>
      (match x with | .null => "" | v => jsToPropertyString v) ++ "," ++ jsToPropItems (y :: rest)

end

def fs_getProduct (st : FsState) (id : String) : Json :=
  readJsonFile st ("products/" ++ id ++ ".json") .null

/-- `getAllProducts`: no products directory → `[]`; read the id index;
read every referenced record; drop unreadable (`null`) ones.  A
non-array index value makes `.map` raise a `TypeError`, which the
surrounding catch converts to `[]`. -/
def fs_getAllProducts (st : FsState) : List Json :=
  if !(existsDir st "products") then []
  else
    match readJsonFile st "productIds.json" (.arr []) with
    | .arr ids =>
        if ids.isEmpty then []
        else (ids.map fun idv => fs_getProduct st (jsToPropertyString idv)).filter
          fun p => !(p == Json.null)
    | _ => []

structure SiteDoc where
  locales : Json
  defaultLocale : Json
  settings : Json
  hero : Json
  advantages : Json
  partners : Json
  tradeRegions : Json
  categories : Json
  featuredProductIds : Json
  products : List Json
  about : Json
  contact : Json
  seo : Json
deriving DecidableEq

/-- `getSiteData`: read all section shards, deep-merge the object
sections over their default skeletons, fall back to the typed empty
value for the rest, and attach the assembled product list. -/
def fs_getSiteData (st : FsState) : SiteDoc :=
  let locales := readJsonFile st "locales.json" (.arr [.str "en", .str "zh"])
  let defaultLocale := readJsonFile st "defaultLocale.json" (.str "en")
  let settings := readJsonFile st "settings.json" .null
  let hero := readJsonFile st "hero.json" .null
  let advantages := readJsonFile st "advantages.json" (.arr [])
  let partners := readJsonFile st "partners.json" (.arr [])
  let tradeRegions := readJsonFile st "tradeRegions.json" (.arr [])
  let categories := readJsonFile st "categories.json" (.arr [])
  let featuredProductIds := readJsonFile st "featuredProductIds.json" (.arr [])
  let about := readJsonFile st "about.json" .null
  let contact := readJsonFile st "contact.json" .null
  let seo := readJsonFile st "seo.json" .null
  { locales := jsOr locales (.arr [.str "en", .str "zh"])
    defaultLocale := jsOr defaultLocale (.str "en")
    settings := if jsTruthy settings then deepMerge defaultSettingsJson settings else defaultSettingsJson
    hero := if jsTruthy hero then deepMerge defaultHeroJson hero else defaultHeroJson
    advantages := jsOr advantages (.arr [])
    partners := jsOr partners (.arr [])
    tradeRegions := jsOr tradeRegions (.arr [])
    categories := jsOr categories (.arr [])
    featuredProductIds := jsOr featuredProductIds (.arr [])
    products := fs_getAllProducts st
    about := if jsTruthy about then deepMerge defaultAboutJson about else defaultAboutJson
    contact := if jsTruthy contact then deepMerge defaultContactJson contact else defaultContactJson
    seo := if jsTruthy seo then deepMerge defaultSeoJson seo else defaultSeoJson }

def sectionFileName (sec : String) : Option String :=
  if sec == "settings" then some "settings.json"
  else if sec == "hero" then some "hero.json"
  else if sec == "advantages" then some "advantages.json"
  else if sec == "partners" then some "partners.json"
  else if sec == "tradeRegions" then some "tradeRegions.json"
  else if sec == "categories" then some "categories.json"
  else if sec == "featuredProductIds" then some "featuredProductIds.json"
  else if sec == "about" then some "about.json"
  else if sec == "contact" then some "contact.json"
  else if sec == "seo" then some "seo.json"
  else if sec == "locales" then some "locales.json"
  else if sec == "defaultLocale" then some "defaultLocale.json"
  else none

def fs_updateSiteSection (st : FsState) (sec : String) (data : Json) :
    Except String FsState :=
  match sectionFileName sec with
  | none => .error ("Invalid section: " ++ sec)
  | some filename => .ok (writeJsonFile st filename data)

/-- `upsertProduct`: ensure the products directory, write the record
shard, then append the id to the index shard when it is not yet listed.
A non-array index makes `.includes` raise, caught and rethrown as
`Failed to upsert product`. -/
def fs_upsertProduct (st : FsState) (product : Json) : Except String (FsState × Json) :=
  let st1 := if existsDir st "products" then st else { st with dirs := st.dirs ++ ["products"] }
  let pid := jsToPropertyString (jsObjGet product "id")
  let st2 := writeJsonFile st1 ("products/" ++ pid ++ ".json") product
  match readJsonFile st2 "productIds.json" (.arr []) with
  | .arr ids =>
      if ids.contains (jsObjGet product "id") then .ok (st2, product)
      else .ok (writeJsonFile st2 "productIds.json" (.arr (ids ++ [jsObjGet product "id"])), product)
  | _ => .error "Failed to upsert product"

/-- `deleteProduct`: when the record shard exists the source calls
`unlinkSync(productFile)`, but `unlinkSync` is not among the names
imported from `fs` at the top of `fileStorage.js`
(`readFileSync, writeFileSync, existsSync, mkdirSync`); the call raises
`ReferenceError: unlinkSync is not defined`, which the surrounding
try/catch rethrows as `Error('Failed to delete product')` before any
shard is touched.  Only when the record shard is absent does execution
reach the index and featured-list updates. -/
def fs_deleteProduct (st : FsState) (id : String) : Except String FsState :=
  if existsFile st ("products/" ++ id ++ ".json") then
    .error "Failed to delete product"
  else
    match readJsonFile st "productIds.json" (.arr []) with
    | .arr ids =>
        let st1 := writeJsonFile st "productIds.json"
          (.arr (ids.filter fun pid => !(pid == Json.str id)))
        match readJsonFile st1 "featuredProductIds.json" (.arr []) with
        | .arr fids =>
            .ok (writeJsonFile st1 "featuredProductIds.json"
              (.arr (fids.filter fun pid => !(pid == Json.str id))))
        | _ => .error "Failed to delete product"
    | _ => .error "Failed to delete product"

/-! ## Blob-backed store (`server/db/blobStorage.js`)

Same shard layout under the `xingjue-data/` prefix; reads return the
default when the token is missing, the blob is absent, or its content
is empty/`null`/`\x7b\x7d`/`[]`; writes throw when the token is missing.
The post-write verification reads in the source only log. -/

structure BlobState where
  blobs : List (String × String)
  token : Bool
deriving DecidableEq

def blobPath (filename : String) : String := "xingjue-data/" ++ filename

/-- The body of `readJsonBlob` once the blob text has been fetched. -/
def readBlobContent (raw : String) (filename : String) (defaultValue : Json) : Json :=
  let text := jsTrim raw
  if text == "" then defaultValue
  else if text == "null" || text == "\x7b\x7d" || text == "[]" then defaultValue
  else if filename == "defaultLocale.json" then readDefaultLocale text defaultValue
  else
    match jsonParse text with
    | some v => v
    | none => defaultValue

def readJsonBlob (st : BlobState) (filename : String) (defaultValue : Json) : Json :=
  if !st.token then defaultValue
  else
    match lookupAssoc st.blobs (blobPath filename) with
    | none => defaultValue
    | some raw => readBlobContent raw filename defaultValue

def writeJsonBlob (st : BlobState) (filename : String) (data : Json) :
    Except String BlobState :=
  if !st.token then .error "Blob Storage not available"
  else .ok { st with blobs := setAssoc st.blobs (blobPath filename) (writeFileContent filename data) }

def blob_getProduct (st : BlobState) (id : String) : Json :=
  readJsonBlob st ("products/" ++ id ++ ".json") .null

def blob_getAllProducts (st : BlobState) : List Json :=
  match readJsonBlob st "productIds.json" (.arr []) with
  | .arr ids =>
      if ids.isEmpty then []
      else (ids.map fun idv => blob_getProduct st (jsToPropertyString idv)).filter
        fun p => !(p == Json.null)
  | _ => []

/-- Blob `upsertProduct`: write the record blob, then append the id to
the index blob when not yet listed; any inner failure is caught and
rethrown as `Failed to upsert product`. -/
def blob_upsertProduct (st : BlobState) (product : Json) : Except String (BlobState × Json) :=
  let pid := jsToPropertyString (jsObjGet product "id")
  match writeJsonBlob st ("products/" ++ pid ++ ".json") product with
  | .error _ => .error "Failed to upsert product"
  | .ok st1 =>
      match readJsonBlob st1 "productIds.json" (.arr []) with
      | .arr ids =>
          if ids.contains (jsObjGet product "id") then .ok (st1, product)
          else
            match writeJsonBlob st1 "productIds.json" (.arr (ids ++ [jsObjGet product "id"])) with
            | .ok st2 => .ok (st2, product)
            | .error _ => .error "Failed to upsert product"
      | _ => .error "Failed to upsert product"

/-! ## Sample values (used by witnesses and concrete scenarios) -/

def emptyLocalized : LocalizedText := ⟨"", ""⟩

def sampleSeoContent : SeoContent := ⟨emptyLocalized, emptyLocalized⟩

def sampleSettings : SiteSettings :=
  { siteName := emptyLocalized, tagline := emptyLocalized, logoUrl := "",
    adminPassword := "", seoDefaults := sampleSeoContent, twitterHandle := none }

def sampleHero : HeroContent :=
  { title := emptyLocalized, subtitle := emptyLocalized, ctaLabel := emptyLocalized,
    backgroundImage := "", backgroundVideo := none }

def sampleAbout : AboutContent :=
  { overview := emptyLocalized, mission := emptyLocalized, timeline := [], team := [] }

def sampleContact : ContactInfo :=
  { phone := "", email := "", whatsapp := "", address := emptyLocalized,
    hours := emptyLocalized, map := ⟨0, 0, 10⟩, socials := [] }

def sampleSeoPages : SeoPages :=
  { home := sampleSeoContent, products := sampleSeoContent, productDetail := sampleSeoContent,
    about := sampleSeoContent, contact := sampleSeoContent, admin := sampleSeoContent }

def emptySiteData : SiteData :=
  { locales := ["en", "zh"], defaultLocale := "en", settings := sampleSettings,
    hero := sampleHero, advantages := [], partners := [], tradeRegions := [],
    categories := [], featuredProductIds := [], products := [],
    about := sampleAbout, contact := sampleContact, seo := ⟨sampleSeoPages⟩ }

/-- A document whose English site name is populated (heuristic-real). -/
def namedSiteData (n : String) : SiteData :=
  { emptySiteData with settings := { sampleSettings with siteName := ⟨n, ""⟩ } }

/-- A heuristic-empty document with populated contact info. -/
def emptyButContactDoc : SiteData :=
  { emptySiteData with contact := { sampleContact with phone := "+86 123", email := "x@y.cn" } }

/-- A document populated only in the Chinese translations. -/
def zhOnlyDoc : SiteData :=
  { emptySiteData with
    settings := { sampleSettings with siteName := ⟨"", "星爵体育"⟩ },
    hero := { sampleHero with title := ⟨"", "星爵外贸"⟩ } }

def sampleProduct (pid : String) : Product :=
  { id := pid, sku := "SKU-" ++ pid, categoryId := "c1", subcategoryId := none,
    name := ⟨pid, pid⟩, shortDescription := emptyLocalized, description := emptyLocalized,
    price := ⟨10, "USD", emptyLocalized, 1⟩, images := ["a.jpg"], mainImage := "a.jpg",
    features := [], specs := [], certifications := [], stockStatus := .inStock,
    leadTime := emptyLocalized, seo := sampleSeoContent,
    translationStatus := ⟨true, false⟩, createdAt := "2024-01-01", updatedAt := "2024-01-01" }

def sampleInquiry (iid : String) : Inquiry :=
  { id := iid, productId := none, name := "A", email := "a@x.com", phone := none,
    company := none, message := "hello!", quantity := none, locale := "en",
    createdAt := "2024-01-01T00:00:00.000Z", status := .new }

def sampleInput : InquiryInput :=
  { productId := none, name := "A", email := "a@x.com", phone := none,
    company := none, message := "hello!", quantity := none, locale := "en" }

/-- The inquiry built locally by `addInquiry` when `api.createInquiry`
fails: payload fields, generated id, timestamp now, status `new`. -/
def localInquiryOf (input : InquiryInput) (genId now : String) : Inquiry :=
  { id := genId, productId := input.productId, name := input.name, email := input.email,
    phone := input.phone, company := input.company, message := input.message,
    quantity := input.quantity, locale := input.locale, createdAt := now, status := .new }

/-- A generic (non-413, non-network) remote failure. -/
def genericFailure : JsError := ⟨false, "500 Internal Server Error"⟩

/-- The import remote save fell back to chunked partial updates: the
upload failed for a size-related reason (explicit 413 text or a
`TypeError` network failure). -/
def uploadSizeFallback : RemoteResult Unit → Bool
  | .ok _ => false
  | .err e => uploadIs413 e.message || uploadIsNetwork e

/-- Same for the inline-`PUT` branch of the import. -/
def putSizeFallback : RemoteResult Unit → Bool
  | .ok _ => false
  | .err e => importIs413 e.message || importIsNetwork e

/-- The remote side accepted the imported document: the primary
transport succeeded, or it failed size-related and the chunked
partial-update fallback succeeded. -/
def importRemoteAccepted (hasFile : Bool)
    (uploadRes putRes partialRes : RemoteResult Unit) : Bool :=
  if hasFile then
    uploadRes.isOk || (uploadSizeFallback uploadRes && partialRes.isOk)
  else
    putRes.isOk || (putSizeFallback putRes && partialRes.isOk)

/-! ## Theorems — Reconciling Data Provider -/

/-- **C3.** When both gateway calls fail and the Local Cache holds a
heuristic-non-empty document, `loadData` commits the cached document
together with the cached inquiry list; the Default Dataset is committed
only when the cache is absent or heuristic-empty, and in that case the
default is mirrored into the cache (the cached inquiry slot is left
as it was). -/
theorem load_failure_prefers_nonempty_cache (e : JsError) (cache : Cache) (dflt : SiteData) :
    (∀ d : SiteData, cache.data = some d → hasRealData d = true →
      loadData (.err e) cache dflt =
        (⟨d, getStoredInquiries cache,
          some ("Using cached data (server unavailable: " ++ e.message ++ ")")⟩, cache)) ∧
    ((cache.data = none ∨ ∃ d, cache.data = some d ∧ hasRealData d = false) →
      loadData (.err e) cache dflt =
        (⟨dflt, [],
          some ("Using default data (server and cache unavailable: " ++ e.message ++ ")")⟩,
         { cache with data := some dflt })) := by
  constructor
  · intro d hd hreal
    simp [loadData, loadFallback, hd, hreal]
  · rintro (hnone | ⟨d, hd, hreal⟩)
    · simp [loadData, loadFallback, hnone]
    · simp [loadData, loadFallback, hd, hreal]

theorem load_failure_prefers_nonempty_cache_witness :
    (⟨some (namedSiteData "Cached"), some [sampleInquiry "i1"]⟩ : Cache).data =
      some (namedSiteData "Cached") ∧
    hasRealData (namedSiteData "Cached") = true ∧
    loadData (.err ⟨false, "down"⟩)
        ⟨some (namedSiteData "Cached"), some [sampleInquiry "i1"]⟩ emptySiteData =
      (⟨namedSiteData "Cached",
        getStoredInquiries ⟨some (namedSiteData "Cached"), some [sampleInquiry "i1"]⟩,
        some ("Using cached data (server unavailable: " ++
          (⟨false, "down"⟩ : JsError).message ++ ")")⟩,
       ⟨some (namedSiteData "Cached"), some [sampleInquiry "i1"]⟩) :=
  ⟨rfl, by decide,
    (load_failure_prefers_nonempty_cache ⟨false, "down"⟩
      ⟨some (namedSiteData "Cached"), some [sampleInquiry "i1"]⟩ emptySiteData).1
      (namedSiteData "Cached") rfl (by decide)⟩

/-- **C4.** A document with blank English site name, blank English hero
title and no products is heuristic-empty — whatever its other fields
hold — and `loadData` then treats the remote response as a failure,
taking the shared cache/default fallback path. -/
theorem empty_heuristic_ignores_other_fields (d : SiteData) (inqs : List Inquiry)
    (cache : Cache) (dflt : SiteData)
    (hname : jsTrim d.settings.siteName.en = "")
    (htitle : jsTrim d.hero.title.en = "")
    (hprods : d.products = []) :
    hasRealData d = false ∧
    loadData (.ok (d, inqs)) cache dflt =
      loadFallback cache dflt "Using cached data (server returned empty data)"
        "Using default data (server returned empty data)" := by
  have hreal : hasRealData d = false := by
    simp [hasRealData, hname, htitle, hprods]
  exact ⟨hreal, by simp [loadData, hreal]⟩

theorem empty_heuristic_ignores_other_fields_witness :
    jsTrim emptyButContactDoc.settings.siteName.en = "" ∧
    jsTrim emptyButContactDoc.hero.title.en = "" ∧
    emptyButContactDoc.products = [] ∧
    hasRealData emptyButContactDoc = false :=
  ⟨by decide, by decide, rfl,
    (empty_heuristic_ignores_other_fields emptyButContactDoc [] ⟨none, none⟩ emptySiteData
      (by decide) (by decide) rfl).1⟩

/-- **C9.** `hasRealData` inspects only the `en` translations: a
document whose site name and hero title are populated only in Chinese
and whose product list is empty is classified empty, so `loadData`
discards such a remote document and falls back to cache/default. -/
theorem zh_only_document_classified_empty (d : SiteData) (inqs : List Inquiry)
    (cache : Cache) (dflt : SiteData)
    (hname : d.settings.siteName.en = "")
    (_hzh : jsTrim d.settings.siteName.zh ≠ "")
    (htitle : d.hero.title.en = "")
    (_htzh : jsTrim d.hero.title.zh ≠ "")
    (hprods : d.products = []) :
    hasRealData d = false ∧
    loadData (.ok (d, inqs)) cache dflt =
      loadFallback cache dflt "Using cached data (server returned empty data)"
        "Using default data (server returned empty data)" := by
  have htrim : jsTrim "" = "" := rfl
  have hreal : hasRealData d = false := by
    simp [hasRealData, hname, htitle, hprods, htrim]
  exact ⟨hreal, by simp [loadData, hreal]⟩

theorem zh_only_document_classified_empty_witness :
    zhOnlyDoc.settings.siteName.en = "" ∧
    jsTrim zhOnlyDoc.settings.siteName.zh ≠ "" ∧
    zhOnlyDoc.hero.title.en = "" ∧
    jsTrim zhOnlyDoc.hero.title.zh ≠ "" ∧
    zhOnlyDoc.products = [] ∧
    hasRealData zhOnlyDoc = false :=
  ⟨rfl, by decide, rfl, by decide, rfl,
    (zh_only_document_classified_empty zhOnlyDoc [] ⟨none, none⟩ emptySiteData
      rfl (by decide) rfl (by decide) rfl).1⟩

/-! ### C5 — upsert helper lemmas -/

theorem filter_upsert_map_nil (p : Product) (ps : List Product)
    (h : ∀ q ∈ ps, (q.id == p.id) = false) :
    (ps.map fun item => if item.id == p.id then p else item).filter
      (fun q => q.id == p.id) = [] := by
  apply List.filter_eq_nil_iff.mpr
  intro q hq
  obtain ⟨a, ha, rfl⟩ := List.mem_map.mp hq
  have haf := h a ha
  simp [haf]

theorem filter_upsert_map_found (p : Product) (ps : List Product)
    (hnd : (ps.map Product.id).Nodup)
    (hex : ∃ q ∈ ps, q.id = p.id) :
    (ps.map fun item => if item.id == p.id then p else item).filter
      (fun q => q.id == p.id) = [p] := by
  induction ps with
  | nil => simp at hex
  | cons a t ih =>
      simp only [List.map_cons, List.nodup_cons] at hnd
      by_cases hai : a.id = p.id
      · have htail : ∀ q ∈ t, ¬q.id = p.id := by
          intro q hq hqp
          exact hnd.1 (by
            rw [hai, ← hqp]
            exact List.mem_map_of_mem Product.id hq)
        simp [hai]
        intro b hb
        have hb' := htail b hb
        simp [hb']
      · obtain ⟨q, hq, hqid⟩ := hex
        rcases List.mem_cons.mp hq with rfl | hqt
        · exact absurd hqid hai
        · have ih' := ih hnd.2 ⟨q, hqt, hqid⟩
          simp [hai]
          simpa using ih'

/-- **C5.** For a duplicate-free product list, after `upsertProduct`'s
list update exactly one entry carries `p.id` and it equals `p`; when an
entry with that id existed it is replaced at its position with every
other position unchanged (order preserved), otherwise `p` is prepended. -/
theorem upsertProduct_exactly_one (p : Product) (ps : List Product)
    (hnd : (ps.map Product.id).Nodup) :
    ((upsertProductList p ps).filter (fun q => q.id == p.id) = [p]) ∧
    (if (ps.findIdx? fun item => item.id == p.id).isSome then
      (upsertProductList p ps).length = ps.length ∧
      ∀ i (hi : i < ps.length),
        (ps[i].id ≠ p.id → (upsertProductList p ps)[i]? = some ps[i]) ∧
        (ps[i].id = p.id → (upsertProductList p ps)[i]? = some p)
    else upsertProductList p ps = p :: ps) := by
  by_cases hfound : (ps.findIdx? fun item => item.id == p.id).isSome
  · have hany : ps.any (fun item => item.id == p.id) = true := by
      rw [← List.findIdx?_isSome]
      exact hfound
    have hex : ∃ q ∈ ps, q.id = p.id := by
      obtain ⟨q, hq, hpq⟩ := List.any_eq_true.mp hany
      exact ⟨q, hq, by simpa using hpq⟩
    have hup : upsertProductList p ps =
        ps.map fun item => if item.id == p.id then p else item := by
      simp [upsertProductList, hfound]
    refine ⟨?_, ?_⟩
    · rw [hup]
      exact filter_upsert_map_found p ps hnd hex
    · rw [if_pos hfound]
      refine ⟨by rw [hup]; simp, ?_⟩
      intro i hi
      have hips : ps[i]? = some ps[i] := List.getElem?_eq_getElem hi
      constructor
      · intro hne
        rw [hup, List.getElem?_map, hips]
        simp [hne]
      · intro heq
        rw [hup, List.getElem?_map, hips]
        simp [heq]
  · have hnone : ps.findIdx? (fun item => item.id == p.id) = none :=
      Option.not_isSome_iff_eq_none.mp hfound
    have hall : ∀ q ∈ ps, (q.id == p.id) = false := by
      intro q hq
      exact List.findIdx?_eq_none_iff.mp hnone q hq
    have hup : upsertProductList p ps = p :: ps := by
      simp [upsertProductList, hfound]
    refine ⟨?_, by rw [if_neg hfound]; exact hup⟩
    rw [hup]
    have hfilter : ps.filter (fun q => q.id == p.id) = [] :=
      List.filter_eq_nil_iff.mpr (by intro q hq; simp [hall q hq])
    simp [List.filter_cons, hfilter]

theorem upsertProduct_exactly_one_witness :
    (List.map Product.id [sampleProduct "b5"]).Nodup ∧
    (upsertProductList (sampleProduct "a5") [sampleProduct "b5"]).filter
      (fun q => q.id == (sampleProduct "a5").id) = [sampleProduct "a5"] :=
  ⟨by decide,
    (upsertProduct_exactly_one (sampleProduct "a5") [sampleProduct "b5"] (by decide)).1⟩

/-- **C6.** `addInquiry`: when `api.createInquiry` fails the operation
still resolves, the committed inquiry is built locally (generated id,
status `new`, timestamp taken at call time, payload fields copied), it
sits at index 0 and the new list is persisted to the Local Cache; when
the call succeeds the server-returned inquiry is used unchanged. -/
theorem addInquiry_offline_local_online_server (input : InquiryInput) (genId now : String)
    (prev : List Inquiry) (cache : Cache) :
    (∀ e : JsError,
      (addInquiryOp input (.err e) genId now prev cache).result = .ok () ∧
      (addInquiryOp input (.err e) genId now prev cache).inquiries =
        localInquiryOf input genId now :: prev ∧
      (localInquiryOf input genId now).id = genId ∧
      (localInquiryOf input genId now).status = .new ∧
      (localInquiryOf input genId now).createdAt = now ∧
      (localInquiryOf input genId now).name = input.name ∧
      (localInquiryOf input genId now).email = input.email ∧
      (localInquiryOf input genId now).message = input.message ∧
      (localInquiryOf input genId now).productId = input.productId ∧
      (localInquiryOf input genId now).quantity = input.quantity ∧
      (localInquiryOf input genId now).locale = input.locale ∧
      (addInquiryOp input (.err e) genId now prev cache).cache =
        { cache with inquiries := some (localInquiryOf input genId now :: prev) }) ∧
    (∀ serverInquiry : Inquiry,
      (addInquiryOp input (.ok serverInquiry) genId now prev cache).result = .ok () ∧
      (addInquiryOp input (.ok serverInquiry) genId now prev cache).inquiries =
        serverInquiry :: prev ∧
      (addInquiryOp input (.ok serverInquiry) genId now prev cache).cache =
        { cache with inquiries := some (serverInquiry :: prev) }) :=
  ⟨fun _ => ⟨rfl, rfl, rfl, rfl, rfl, rfl, rfl, rfl, rfl, rfl, rfl, rfl⟩,
   fun _ => ⟨rfl, rfl, rfl⟩⟩

/-! ### C1 — write-operation effect order -/

theorem importOp_trace_head (d : SiteData) (hasFile : Bool) (u p pr : RemoteResult Unit)
    (lr : RemoteResult (SiteData × List Inquiry)) (client : ClientState) (cache : Cache)
    (dflt : SiteData) :
    (importSiteDataOp d hasFile u p pr lr client cache dflt).trace.head? =
      some (.remote (if hasFile then "uploadSiteData" else "updateSiteData")) := by
  cases hasFile
  · cases p with
    | ok v => rfl
    | err e =>
        by_cases hc : (importIs413 e.message || importIsNetwork e) = true
        · cases pr <;> simp [importSiteDataOp, importCommitAndRefresh, importReject, hc]
        · simp [importSiteDataOp, importReject, hc]
  · cases u with
    | ok v => rfl
    | err e =>
        by_cases hc : (uploadIs413 e.message || uploadIsNetwork e) = true
        · cases pr <;> simp [importSiteDataOp, importCommitAndRefresh, importReject, hc]
        · simp [importSiteDataOp, importReject, hc]

theorem importOp_result_iff (d : SiteData) (hasFile : Bool) (u p pr : RemoteResult Unit)
    (lr : RemoteResult (SiteData × List Inquiry)) (client : ClientState) (cache : Cache)
    (dflt : SiteData) :
    ((importSiteDataOp d hasFile u p pr lr client cache dflt).result = .ok ()) ↔
      importRemoteAccepted hasFile u p pr = true := by
  cases hasFile
  · cases p with
    | ok v =>
        simp [importSiteDataOp, importCommitAndRefresh, importRemoteAccepted, RemoteResult.isOk]
    | err e =>
        by_cases hc : (importIs413 e.message || importIsNetwork e) = true
        · cases pr with
          | ok v =>
              simp [importSiteDataOp, importCommitAndRefresh, importRemoteAccepted,
                putSizeFallback, RemoteResult.isOk, hc]
          | err pe =>
              simp [importSiteDataOp, importReject, importRemoteAccepted,
                putSizeFallback, RemoteResult.isOk, hc]
        · simp [importSiteDataOp, importReject, importRemoteAccepted,
            putSizeFallback, RemoteResult.isOk, hc]
  · cases u with
    | ok v =>
        simp [importSiteDataOp, importCommitAndRefresh, importRemoteAccepted, RemoteResult.isOk]
    | err e =>
        by_cases hc : (uploadIs413 e.message || uploadIsNetwork e) = true
        · cases pr with
          | ok v =>
              simp [importSiteDataOp, importCommitAndRefresh, importRemoteAccepted,
                uploadSizeFallback, RemoteResult.isOk, hc]
          | err pe =>
              simp [importSiteDataOp, importReject, importRemoteAccepted,
                uploadSizeFallback, RemoteResult.isOk, hc]
        · simp [importSiteDataOp, importReject, importRemoteAccepted,
            uploadSizeFallback, RemoteResult.isOk, hc]

theorem importOp_commit_iff (d : SiteData) (hasFile : Bool) (u p pr : RemoteResult Unit)
    (lr : RemoteResult (SiteData × List Inquiry)) (client : ClientState) (cache : Cache)
    (dflt : SiteData) :
    (Ev.commitData ∈ (importSiteDataOp d hasFile u p pr lr client cache dflt).trace) ↔
      importRemoteAccepted hasFile u p pr = true := by
  cases hasFile
  · cases p with
    | ok v =>
        simp [importSiteDataOp, importCommitAndRefresh, importRemoteAccepted, RemoteResult.isOk]
    | err e =>
        by_cases hc : (importIs413 e.message || importIsNetwork e) = true
        · cases pr with
          | ok v =>
              simp [importSiteDataOp, importCommitAndRefresh, importRemoteAccepted,
                putSizeFallback, RemoteResult.isOk, hc]
          | err pe =>
              simp [importSiteDataOp, importReject, importRemoteAccepted,
                putSizeFallback, RemoteResult.isOk, hc]
        · simp [importSiteDataOp, importReject, importRemoteAccepted,
            putSizeFallback, RemoteResult.isOk, hc]
  · cases u with
    | ok v =>
        simp [importSiteDataOp, importCommitAndRefresh, importRemoteAccepted, RemoteResult.isOk]
    | err e =>
        by_cases hc : (uploadIs413 e.message || uploadIsNetwork e) = true
        · cases pr with
          | ok v =>
              simp [importSiteDataOp, importCommitAndRefresh, importRemoteAccepted,
                uploadSizeFallback, RemoteResult.isOk, hc]
          | err pe =>
              simp [importSiteDataOp, importReject, importRemoteAccepted,
                uploadSizeFallback, RemoteResult.isOk, hc]
        · simp [importSiteDataOp, importReject, importRemoteAccepted,
            uploadSizeFallback, RemoteResult.isOk, hc]

theorem importOp_reject_unchanged (d : SiteData) (hasFile : Bool) (u p pr : RemoteResult Unit)
    (lr : RemoteResult (SiteData × List Inquiry)) (client : ClientState) (cache : Cache)
    (dflt : SiteData)
    (hrej : importRemoteAccepted hasFile u p pr = false) :
    (importSiteDataOp d hasFile u p pr lr client cache dflt).client.siteData = client.siteData ∧
    (importSiteDataOp d hasFile u p pr lr client cache dflt).cache = cache := by
  cases hasFile
  · cases p with
    | ok v => simp [importRemoteAccepted, RemoteResult.isOk] at hrej
    | err e =>
        by_cases hc : (importIs413 e.message || importIsNetwork e) = true
        · cases pr with
          | ok v =>
              simp [importRemoteAccepted, putSizeFallback, RemoteResult.isOk, hc] at hrej
          | err pe =>
              exact ⟨by simp [importSiteDataOp, importReject, hc],
                by simp [importSiteDataOp, importReject, hc]⟩
        · exact ⟨by simp [importSiteDataOp, importReject, hc],
            by simp [importSiteDataOp, importReject, hc]⟩
  · cases u with
    | ok v => simp [importRemoteAccepted, RemoteResult.isOk] at hrej
    | err e =>
        by_cases hc : (uploadIs413 e.message || uploadIsNetwork e) = true
        · cases pr with
          | ok v =>
              simp [importRemoteAccepted, uploadSizeFallback, RemoteResult.isOk, hc] at hrej
          | err pe =>
              exact ⟨by simp [importSiteDataOp, importReject, hc],
                by simp [importSiteDataOp, importReject, hc]⟩
        · exact ⟨by simp [importSiteDataOp, importReject, hc],
            by simp [importSiteDataOp, importReject, hc]⟩

/-- **C1 counterexample.** A concrete `importSiteData` run (no file,
`api.updateSiteData` rejects with a plain 500 error): the promise
rejects and nothing is committed — neither the in-memory state nor the
Local Cache is touched before the remote call, contradicting the
claimed commit-before-remote, never-reject pattern for every write
operation. -/
theorem import_generic_failure_counterexample :
    (importSiteDataOp (namedSiteData "New") false (.ok ()) (.err genericFailure) (.ok ())
        (.ok (namedSiteData "New", [])) ⟨emptySiteData, [], none⟩ ⟨none, none⟩
        emptySiteData).result =
      .error "Failed to save to server: 500 Internal Server Error" ∧
    (importSiteDataOp (namedSiteData "New") false (.ok ()) (.err genericFailure) (.ok ())
        (.ok (namedSiteData "New", [])) ⟨emptySiteData, [], none⟩ ⟨none, none⟩
        emptySiteData).trace = [Ev.remote "updateSiteData"] ∧
    Ev.commitData ∉
      (importSiteDataOp (namedSiteData "New") false (.ok ()) (.err genericFailure) (.ok ())
        (.ok (namedSiteData "New", [])) ⟨emptySiteData, [], none⟩ ⟨none, none⟩
        emptySiteData).trace ∧
    (importSiteDataOp (namedSiteData "New") false (.ok ()) (.err genericFailure) (.ok ())
        (.ok (namedSiteData "New", [])) ⟨emptySiteData, [], none⟩ ⟨none, none⟩
        emptySiteData).client.siteData = emptySiteData ∧
    (importSiteDataOp (namedSiteData "New") false (.ok ()) (.err genericFailure) (.ok ())
        (.ok (namedSiteData "New", [])) ⟨emptySiteData, [], none⟩ ⟨none, none⟩
        emptySiteData).cache = (⟨none, none⟩ : Cache) := by
  refine ⟨?_, ?_, ?_, ?_, ?_⟩ <;> decide

/-- **C1 amended.** Effect order and rejection behaviour per write
operation: `setSiteData` and `updateInquiryStatus` commit in-memory
state and persist to the Local Cache before the remote call and never
reject; `upsertProduct`, `deleteProduct` and `addInquiry` attempt the
remote call first, then commit the optimistic state and the cache
whether or not it failed, and never reject; `importSiteData` performs
the remote persistence first and commits (and refreshes) only when the
remote save — or its chunked size-related fallback — succeeded, while
any other remote failure rejects the promise and leaves the in-memory
state and the cache untouched. -/
theorem provider_write_effect_order (d : SiteData) (p : Product) (pid : String)
    (input : InquiryInput) (iid : String) (istatus : InquiryStatus) (genId now : String)
    (st : SiteData) (prev : List Inquiry) (cache : Cache)
    (r1 r2 : RemoteResult Unit) (rCreate : RemoteResult Inquiry)
    (hasFile : Bool) (uploadRes putRes partialRes : RemoteResult Unit)
    (loadRemote : RemoteResult (SiteData × List Inquiry)) (client : ClientState)
    (dflt : SiteData) :
    ((setSiteDataOp d r1 st cache).trace =
      [.commitData, .saveCache, .remote "updateSiteData"] ∧
     (setSiteDataOp d r1 st cache).result = .ok () ∧
     (setSiteDataOp d r1 st cache).state = d ∧
     (setSiteDataOp d r1 st cache).cache.data = some d) ∧
    ((updateInquiryStatusOp iid istatus r1 prev cache).trace =
      [.commitData, .saveCache, .remote "updateInquiryStatus"] ∧
     (updateInquiryStatusOp iid istatus r1 prev cache).result = .ok ()) ∧
    ((upsertProductOp p r1 r2 st cache).trace.head? = some (.remote "upsertProduct") ∧
     Ev.commitData ∈ (upsertProductOp p r1 r2 st cache).trace ∧
     Ev.saveCache ∈ (upsertProductOp p r1 r2 st cache).trace ∧
     (upsertProductOp p r1 r2 st cache).result = .ok () ∧
     (upsertProductOp p r1 r2 st cache).state =
       { st with products := upsertProductList p st.products } ∧
     (upsertProductOp p r1 r2 st cache).cache.data =
       some { st with products := upsertProductList p st.products }) ∧
    ((deleteProductOp pid r1 r2 st cache).trace.head? = some (.remote "deleteProduct") ∧
     Ev.commitData ∈ (deleteProductOp pid r1 r2 st cache).trace ∧
     Ev.saveCache ∈ (deleteProductOp pid r1 r2 st cache).trace ∧
     (deleteProductOp pid r1 r2 st cache).result = .ok () ∧
     (deleteProductOp pid r1 r2 st cache).state =
       { st with products := deleteProductList pid st.products }) ∧
    ((addInquiryOp input rCreate genId now prev cache).trace.head? =
      some (.remote "createInquiry") ∧
     Ev.commitData ∈ (addInquiryOp input rCreate genId now prev cache).trace ∧
     Ev.saveCache ∈ (addInquiryOp input rCreate genId now prev cache).trace ∧
     (addInquiryOp input rCreate genId now prev cache).result = .ok ()) ∧
    ((importSiteDataOp d hasFile uploadRes putRes partialRes loadRemote client cache
        dflt).trace.head? =
      some (.remote (if hasFile then "uploadSiteData" else "updateSiteData")) ∧
     (((importSiteDataOp d hasFile uploadRes putRes partialRes loadRemote client cache
        dflt).result = .ok ()) ↔
       importRemoteAccepted hasFile uploadRes putRes partialRes = true) ∧
     ((Ev.commitData ∈ (importSiteDataOp d hasFile uploadRes putRes partialRes loadRemote
        client cache dflt).trace) ↔
       importRemoteAccepted hasFile uploadRes putRes partialRes = true) ∧
     (importRemoteAccepted hasFile uploadRes putRes partialRes = false →
       (importSiteDataOp d hasFile uploadRes putRes partialRes loadRemote client cache
         dflt).client.siteData = client.siteData ∧
       (importSiteDataOp d hasFile uploadRes putRes partialRes loadRemote client cache
         dflt).cache = cache)) := by
  refine ⟨⟨rfl, rfl, rfl, rfl⟩, ⟨rfl, rfl⟩, ?_, ?_, ?_, ?_⟩
  · cases r1 <;>
      exact ⟨rfl, by simp [upsertProductOp], by simp [upsertProductOp], rfl, rfl, rfl⟩
  · cases r1 <;>
      exact ⟨rfl, by simp [deleteProductOp], by simp [deleteProductOp], rfl, rfl⟩
  · cases rCreate <;>
      exact ⟨rfl, by simp [addInquiryOp], by simp [addInquiryOp], rfl⟩
  · exact ⟨importOp_trace_head d hasFile uploadRes putRes partialRes loadRemote client
        cache dflt,
      importOp_result_iff d hasFile uploadRes putRes partialRes loadRemote client cache dflt,
      importOp_commit_iff d hasFile uploadRes putRes partialRes loadRemote client cache dflt,
      fun hrej => importOp_reject_unchanged d hasFile uploadRes putRes partialRes loadRemote
        client cache dflt hrej⟩

theorem provider_write_effect_order_witness :
    importRemoteAccepted false (.ok ()) (.err genericFailure) (.ok ()) = false ∧
    (importSiteDataOp emptySiteData false (.ok ()) (.err genericFailure) (.ok ())
      (.ok (emptySiteData, [])) ⟨emptySiteData, [], none⟩ ⟨none, none⟩
      emptySiteData).cache = (⟨none, none⟩ : Cache) :=
  ⟨by decide,
    ((provider_write_effect_order emptySiteData (sampleProduct "a") "a" sampleInput "i"
      .new "g" "t" emptySiteData [] ⟨none, none⟩ (.ok ()) (.ok ()) (.ok (sampleInquiry "i"))
      false (.ok ()) (.err genericFailure) (.ok ()) (.ok (emptySiteData, []))
      ⟨emptySiteData, [], none⟩ emptySiteData).2.2.2.2.2.2.2.2 (by decide)).2⟩

/-! ## Theorems — Sharded Document Store

Assoc-list lookup lemmas for the file/blob maps. -/

theorem lookup_map_setkey {β : Type} (l : List (String × β)) (k : String) (v : β)
    (hany : (l.any fun kv => kv.1 == k) = true) :
    lookupAssoc (l.map fun kv => if kv.1 == k then (k, v) else kv) k = some v := by
  induction l with
  | nil => simp at hany
  | cons kv t ih =>
      by_cases hk : (kv.1 == k) = true
      · rw [List.map_cons, if_pos hk]
        simp [lookupAssoc]
      · rw [List.map_cons, if_neg hk]
        simp only [List.any_cons, hk, Bool.false_or] at hany
        simp only [lookupAssoc, hk, Bool.false_eq_true, if_false]
        exact ih hany

theorem lookup_append_self {β : Type} (l : List (String × β)) (k : String) (v : β)
    (hnone : (l.any fun kv => kv.1 == k) = false) :
    lookupAssoc (l ++ [(k, v)]) k = some v := by
  induction l with
  | nil => simp [lookupAssoc]
  | cons kv t ih =>
      simp only [List.any_cons, Bool.or_eq_false_iff] at hnone
      simp only [List.cons_append, lookupAssoc, hnone.1, Bool.false_eq_true, if_false]
      exact ih hnone.2

theorem lookup_setAssoc_self {β : Type} (l : List (String × β)) (k : String) (v : β) :
    lookupAssoc (setAssoc l k v) k = some v := by
  by_cases hany : (l.any fun kv => kv.1 == k) = true
  · rw [setAssoc, if_pos hany]
    exact lookup_map_setkey l k v hany
  · rw [setAssoc, if_neg hany]
    have hfalse : (l.any fun kv => kv.1 == k) = false := by
      revert hany
      cases l.any fun kv => kv.1 == k <;> simp
    exact lookup_append_self l k v hfalse

theorem lookup_setAssoc_ne {β : Type} (l : List (String × β)) (k k' : String) (v : β)
    (hne : k' ≠ k) :
    lookupAssoc (setAssoc l k' v) k = lookupAssoc l k := by
  have hbk : (k' == k) = false := beq_eq_false_iff_ne.mpr hne
  rw [setAssoc]
  by_cases hany : (l.any fun kv => kv.1 == k') = true
  · rw [if_pos hany]
    clear hany
    induction l with
    | nil => simp
    | cons kv t ih =>
        by_cases hk : (kv.1 == k') = true
        · have hkv : kv.1 = k' := beq_iff_eq.mp hk
          rw [List.map_cons, if_pos hk]
          simp only [lookupAssoc, hbk, hkv, Bool.false_eq_true, if_false]
          exact ih
        · rw [List.map_cons, if_neg hk]
          simp only [lookupAssoc]
          cases hkkv : (kv.1 == k) with
          | true => simp [hkkv]
          | false => simp only [hkkv, Bool.false_eq_true, if_false]; exact ih
  · rw [if_neg hany]
    induction l with
    | nil => simp [lookupAssoc, hbk]
    | cons kv t ih =>
        have hany2 : ¬(t.any fun kv => kv.1 == k') = true := by
          intro h
          exact hany (by simp [List.any_cons, h])
        simp only [List.cons_append, lookupAssoc]
        cases hkkv : (kv.1 == k) with
        | true => simp [hkkv]
        | false => simp only [hkkv, Bool.false_eq_true, if_false]; exact ih hany2

theorem lookupFile_setFile_self (st : FsState) (name content : String) :
    lookupFile (setFile st name content) name = some content :=
  lookup_setAssoc_self st.files name content

theorem lookupFile_setFile_ne (st : FsState) (name name' content : String)
    (hne : name ≠ name') :
    lookupFile (setFile st name content) name' = lookupFile st name' :=
  lookup_setAssoc_ne st.files name' name content hne

theorem ensureParentDir_files (st : FsState) (f : String) :
    (ensureParentDir st f).files = st.files := by
  rw [ensureParentDir]
  cases parentDir f with
  | none => rfl
  | some d =>
      by_cases h : existsDir st d = true <;> simp [h]

/-- **C2 (code evaluated at the failing input).** For a store state
whose `products/p1.json` record shard exists, `deleteProduct("p1")`
throws `Failed to delete product` (the `unlinkSync` call raises a
`ReferenceError` because `unlinkSync` is not imported), so the record
shard, the id-index shard and the featured-products shard are all left
untouched. -/
theorem deleteProduct_existing_record_throws :
    existsFile ⟨[("products/p1.json",
        stringifyPretty 0 (Json.obj [("id", Json.str "p1")]))], ["products"]⟩
      "products/p1.json" = true ∧
    fs_deleteProduct ⟨[("products/p1.json",
        stringifyPretty 0 (Json.obj [("id", Json.str "p1")]))], ["products"]⟩ "p1" =
      .error "Failed to delete product" :=
  ⟨rfl, rfl⟩

/-- **C7.** The `defaultLocale` shard round-trips the bare scalar:
writing the plain string `zh` on any store state and reading it back
yields exactly the string `zh` (the stored file text being the
JSON-encoded scalar, not a double-encoded string or an object); a
legacy shard holding the scalar JSON-encoded once, or JSON-encoded
twice, is unwrapped to the bare scalar on read. -/
theorem defaultLocale_scalar_roundtrip :
    (∀ st : FsState,
      readJsonFile (writeJsonFile st "defaultLocale.json" (.str "zh"))
        "defaultLocale.json" (.str "en") = .str "zh") ∧
    (∀ st : FsState,
      lookupFile (writeJsonFile st "defaultLocale.json" (.str "zh"))
        "defaultLocale.json" = some "\"zh\"") ∧
    readJsonFile ⟨[("defaultLocale.json", "\"zh\"")], []⟩
      "defaultLocale.json" (.str "en") = .str "zh" ∧
    readJsonFile ⟨[("defaultLocale.json", "\"\\\"zh\\\"\"")], []⟩
      "defaultLocale.json" (.str "en") = .str "zh" := by
  have hw : ∀ st : FsState,
      writeJsonFile st "defaultLocale.json" (.str "zh") =
        setFile st "defaultLocale.json" "\"zh\"" := by
    intro st
    have h1 : parentDir "defaultLocale.json" = none := rfl
    show setFile (ensureParentDir st "defaultLocale.json") "defaultLocale.json"
        (stringifyCompact (.str "zh")) = setFile st "defaultLocale.json" "\"zh\""
    rw [ensureParentDir, h1]
    rfl
  have hlk : ∀ st : FsState,
      lookupFile (writeJsonFile st "defaultLocale.json" (.str "zh"))
        "defaultLocale.json" = some "\"zh\"" := by
    intro st
    rw [hw st]
    exact lookupFile_setFile_self st "defaultLocale.json" "\"zh\""
  refine ⟨?_, hlk, rfl, rfl⟩
  intro st
  rw [readJsonFile, hlk st]
  rfl

/-! ### C10 — server index order vs client list order -/

theorem productRecordPath_ne_index (s : String) :
    ("products/" ++ s ++ ".json") ≠ "productIds.json" := by
  intro h
  have h2 := congrArg String.data h
  rw [String.data_append, String.data_append] at h2
  have e1 : "products/".data = ['p', 'r', 'o', 'd', 'u', 'c', 't', 's', '/'] := rfl
  have e2 : "productIds.json".data =
      ['p', 'r', 'o', 'd', 'u', 'c', 't', 'I', 'd', 's', '.', 'j', 's', 'o', 'n'] := rfl
  rw [e1, e2] at h2
  simp at h2

theorem blobRecordPath_ne_index (s : String) :
    blobPath ("products/" ++ s ++ ".json") ≠ blobPath "productIds.json" := by
  intro h
  have h2 := congrArg String.data h
  rw [blobPath, blobPath, String.data_append, String.data_append, String.data_append,
    String.data_append] at h2
  have e1 : "xingjue-data/".data =
      ['x', 'i', 'n', 'g', 'j', 'u', 'e', '-', 'd', 'a', 't', 'a', '/'] := rfl
  have e2 : "products/".data = ['p', 'r', 'o', 'd', 'u', 'c', 't', 's', '/'] := rfl
  have e3 : "productIds.json".data =
      ['p', 'r', 'o', 'd', 'u', 'c', 't', 'I', 'd', 's', '.', 'j', 's', 'o', 'n'] := rfl
  rw [e1, e2, e3] at h2
  simp at h2

/-- `writeJsonFile` stores some content at the target path and touches
nothing else. -/
theorem writeJsonFile_shape (st : FsState) (fname : String) (data : Json) :
    ∃ c : String, writeJsonFile st fname data =
      setFile (ensureParentDir st fname) fname c :=
  ⟨writeFileContent fname data, rfl⟩

theorem lookupFile_writeJsonFile_ne (st : FsState) (fname other : String) (data : Json)
    (hne : fname ≠ other) :
    lookupFile (writeJsonFile st fname data) other = lookupFile st other := by
  obtain ⟨c, hc⟩ := writeJsonFile_shape st fname data
  rw [hc]
  exact (lookup_setAssoc_ne (ensureParentDir st fname).files other fname c hne).trans
    (congrArg (fun l => lookupAssoc l other) (ensureParentDir_files st fname))

theorem readJsonFile_eq_of_lookup (st st' : FsState) (fname : String) (dflt : Json)
    (h : lookupFile st fname = lookupFile st' fname) :
    readJsonFile st fname dflt = readJsonFile st' fname dflt := by
  rw [readJsonFile, readJsonFile, h]

theorem writeJsonBlob_ok (st : BlobState) (fname : String) (data : Json)
    (htok : st.token = true) :
    writeJsonBlob st fname data =
      .ok { st with blobs := (setAssoc st.blobs (blobPath fname)
        (writeFileContent fname data)) } := by
  rw [writeJsonBlob]
  simp only [htok, Bool.not_true, Bool.false_eq_true, if_false]

/-- **C10.** A new product id is appended at the END of the id-index
shard by both server backends, while the client provider prepends a new
product at the FRONT of its in-memory list; reloading from the file
store therefore lists products oldest-first, with a newly created
product last rather than at index 0. -/
theorem server_appends_client_prepends :
    (∀ (p : Product) (ps : List Product),
      (ps.findIdx? fun item => item.id == p.id) = none →
      upsertProductList p ps = p :: ps) ∧
    (∀ (st : FsState) (product : Json) (ids : List Json),
      readJsonFile st "productIds.json" (.arr []) = .arr ids →
      ids.contains (jsObjGet product "id") = false →
      ∃ st' : FsState,
        fs_upsertProduct st product = .ok (st', product) ∧
        lookupFile st' "productIds.json" =
          some (stringifyPretty 0 (.arr (ids ++ [jsObjGet product "id"])))) ∧
    (∀ (st : BlobState) (product : Json) (ids : List Json),
      st.token = true →
      readJsonBlob st "productIds.json" (.arr []) = .arr ids →
      ids.contains (jsObjGet product "id") = false →
      ∃ st' : BlobState,
        blob_upsertProduct st product = .ok (st', product) ∧
        lookupAssoc st'.blobs (blobPath "productIds.json") =
          some (stringifyPretty 0 (.arr (ids ++ [jsObjGet product "id"])))) ∧
    ((fs_upsertProduct ⟨[], []⟩ (Json.obj [("id", Json.str "p1")])).toOption.map
      (fun r => (fs_upsertProduct r.1 (Json.obj [("id", Json.str "p2")])).toOption.map
        fun r2 => (fs_getSiteData r2.1).products) =
      some (some [Json.obj [("id", Json.str "p1")], Json.obj [("id", Json.str "p2")]])) ∧
    upsertProductList (sampleProduct "p2") [sampleProduct "p1"] =
      [sampleProduct "p2", sampleProduct "p1"] := by
  refine ⟨?_, ?_, ?_, rfl, by decide⟩
  · intro p ps h
    simp [upsertProductList, h]
  · intro st product ids h1 h2
    set st1 : FsState := if existsDir st "products" = true then st
      else { st with dirs := st.dirs ++ ["products"] } with hst1
    set path : String :=
      "products/" ++ jsToPropertyString (jsObjGet product "id") ++ ".json" with hpath
    have hfiles1 : st1.files = st.files := by
      rw [hst1]
      by_cases h : existsDir st "products" = true <;> simp [h]
    have hl2 : lookupFile (writeJsonFile st1 path product) "productIds.json" =
        lookupFile st "productIds.json" :=
      (lookupFile_writeJsonFile_ne st1 path "productIds.json" product
        (hpath ▸ productRecordPath_ne_index _)).trans
        (congrArg (fun l => lookupAssoc l "productIds.json") hfiles1)
    have hread : readJsonFile (writeJsonFile st1 path product) "productIds.json" (.arr []) =
        .arr ids :=
      (readJsonFile_eq_of_lookup _ st "productIds.json" (.arr []) hl2).trans h1
    refine ⟨writeJsonFile (writeJsonFile st1 path product) "productIds.json"
      (.arr (ids ++ [jsObjGet product "id"])), ?_, ?_⟩
    · have h2m : jsObjGet product "id" ∉ ids := by simpa using h2
      simp only [fs_upsertProduct]
      rw [← hst1, ← hpath, hread]
      simp [h2m]
    · show lookupAssoc (setAssoc (ensureParentDir (writeJsonFile st1 path product)
          "productIds.json").files "productIds.json"
          (writeFileContent "productIds.json" (.arr (ids ++ [jsObjGet product "id"]))))
          "productIds.json" = _
      rw [lookup_setAssoc_self]
      rfl
  · intro st product ids htok h1 h2
    set path : String :=
      "products/" ++ jsToPropertyString (jsObjGet product "id") ++ ".json" with hpath
    have hc := writeJsonBlob_ok st path product htok
    set stBlobs : List (String × String) :=
      setAssoc st.blobs (blobPath path) (writeFileContent path product) with hblobs
    set st1 : BlobState := { st with blobs := stBlobs } with hst1
    have htok1 : st1.token = true := htok
    have hl1 : lookupAssoc st1.blobs (blobPath "productIds.json") =
        lookupAssoc st.blobs (blobPath "productIds.json") := by
      rw [hst1]
      exact lookup_setAssoc_ne st.blobs (blobPath "productIds.json") (blobPath path) _
        (hpath ▸ blobRecordPath_ne_index _)
    have hread : readJsonBlob st1 "productIds.json" (.arr []) = .arr ids := by
      rw [readJsonBlob] at h1 ⊢
      simp only [htok, htok1, Bool.not_true, Bool.false_eq_true, if_false] at h1 ⊢
      rw [hl1]
      exact h1
    have hw2 : writeJsonBlob st1 "productIds.json" (.arr (ids ++ [jsObjGet product "id"])) =
        .ok { st1 with blobs := (setAssoc st1.blobs (blobPath "productIds.json")
          (writeFileContent "productIds.json" (.arr (ids ++ [jsObjGet product "id"])))) } :=
      writeJsonBlob_ok st1 "productIds.json" _ htok1
    refine ⟨{ st1 with blobs := (setAssoc st1.blobs (blobPath "productIds.json")
      (writeFileContent "productIds.json" (.arr (ids ++ [jsObjGet product "id"])))) }, ?_, ?_⟩
    · have h2m : jsObjGet product "id" ∉ ids := by simpa using h2
      simp only [blob_upsertProduct]
      rw [← hpath]
      simp only [hc]
      rw [hread]
      simp [h2m, hw2]
    · show lookupAssoc (setAssoc st1.blobs (blobPath "productIds.json")
          (writeFileContent "productIds.json" (.arr (ids ++ [jsObjGet product "id"]))))
          (blobPath "productIds.json") = _
      rw [lookup_setAssoc_self]
      rfl

theorem server_appends_client_prepends_witness :
    upsertProductList (sampleProduct "w") [] = [sampleProduct "w"] ∧
    (∃ st' : FsState,
      fs_upsertProduct ⟨[], []⟩ (Json.obj [("id", Json.str "pw")]) =
        .ok (st', Json.obj [("id", Json.str "pw")]) ∧
      lookupFile st' "productIds.json" =
        some (stringifyPretty 0
          (.arr ([] ++ [jsObjGet (Json.obj [("id", Json.str "pw")]) "id"])))) ∧
    (∃ st' : BlobState,
      blob_upsertProduct ⟨[], true⟩ (Json.obj [("id", Json.str "pw")]) =
        .ok (st', Json.obj [("id", Json.str "pw")]) ∧
      lookupAssoc st'.blobs (blobPath "productIds.json") =
        some (stringifyPretty 0
          (.arr ([] ++ [jsObjGet (Json.obj [("id", Json.str "pw")]) "id"])))) :=
  ⟨server_appends_client_prepends.1 (sampleProduct "w") [] rfl,
   server_appends_client_prepends.2.1 ⟨[], []⟩ (Json.obj [("id", Json.str "pw")]) [] rfl rfl,
   server_appends_client_prepends.2.2.1 ⟨[], true⟩ (Json.obj [("id", Json.str "pw")]) []
     rfl rfl rfl⟩

/-! ### C8 — read-time assembly tolerates missing/unreadable shards -/

theorem mergeFields_lookup_ne (sfs : List (String × Json)) (res : List (String × Json))
    (k : String) (h : ∀ kv ∈ sfs, kv.1 ≠ k) :
    lookupAssoc (mergeFields res sfs) k = lookupAssoc res k := by
  induction sfs generalizing res with
  | nil => rfl
  | cons kv rest ih =>
      obtain ⟨k1, v1⟩ := kv
      have hk : k1 ≠ k := h (k1, v1) (by simp)
      have hrest : ∀ kv' ∈ rest, kv'.1 ≠ k := fun kv' h' => h kv' (by simp [h'])
      cases v1 <;>
        (simp only [mergeFields]
         rw [ih _ hrest, lookup_setAssoc_ne _ _ _ _ hk])

/-- The all-default Site Document that `getSiteData` assembles when
every shard is missing. -/
def allDefaultSiteDoc : SiteDoc :=
  { locales := .arr [.str "en", .str "zh"]
    defaultLocale := .str "en"
    settings := defaultSettingsJson
    hero := defaultHeroJson
    advantages := .arr []
    partners := .arr []
    tradeRegions := .arr []
    categories := .arr []
    featuredProductIds := .arr []
    products := []
    about := defaultAboutJson
    contact := defaultContactJson
    seo := defaultSeoJson }

/-- **C8.** `getSiteData` never fails on a degenerate backing store: on
the empty store it returns the all-default document; each missing
section shard independently falls back to its typed default skeleton,
whatever the rest of the store holds; `deepMerge` leaves the default
skeleton intact for a non-object stored section and keeps the
skeleton's value at every key the stored object lacks; and the product
list is assembled by reading the index ids in order and silently
filtering out unreadable (`null`) records. -/
theorem getSiteData_tolerates_missing_shards :
    fs_getSiteData ⟨[], []⟩ = allDefaultSiteDoc ∧
    (∀ st : FsState,
      (lookupFile st "settings.json" = none →
        (fs_getSiteData st).settings = defaultSettingsJson) ∧
      (lookupFile st "hero.json" = none → (fs_getSiteData st).hero = defaultHeroJson) ∧
      (lookupFile st "about.json" = none → (fs_getSiteData st).about = defaultAboutJson) ∧
      (lookupFile st "contact.json" = none →
        (fs_getSiteData st).contact = defaultContactJson) ∧
      (lookupFile st "seo.json" = none → (fs_getSiteData st).seo = defaultSeoJson) ∧
      (lookupFile st "locales.json" = none →
        (fs_getSiteData st).locales = .arr [.str "en", .str "zh"]) ∧
      (lookupFile st "defaultLocale.json" = none →
        (fs_getSiteData st).defaultLocale = .str "en") ∧
      (lookupFile st "advantages.json" = none →
        (fs_getSiteData st).advantages = .arr []) ∧
      (lookupFile st "partners.json" = none → (fs_getSiteData st).partners = .arr []) ∧
      (lookupFile st "tradeRegions.json" = none →
        (fs_getSiteData st).tradeRegions = .arr []) ∧
      (lookupFile st "categories.json" = none →
        (fs_getSiteData st).categories = .arr []) ∧
      (lookupFile st "featuredProductIds.json" = none →
        (fs_getSiteData st).featuredProductIds = .arr [])) ∧
    (∀ (t : Json) (b : Bool) (n : Int) (s : String),
      deepMerge t .null = t ∧ deepMerge t (.bool b) = t ∧
      deepMerge t (.num n) = t ∧ deepMerge t (.str s) = t) ∧
    (∀ (tfs sfs : List (String × Json)) (k : String),
      (∀ kv ∈ sfs, kv.1 ≠ k) →
      jsObjGet (deepMerge (.obj tfs) (.obj sfs)) k = jsObjGet (.obj tfs) k) ∧
    (∀ st : FsState, existsDir st "products" = false → (fs_getSiteData st).products = []) ∧
    (∀ (st : FsState) (ids : List Json),
      existsDir st "products" = true →
      readJsonFile st "productIds.json" (.arr []) = .arr ids →
      (fs_getSiteData st).products =
        (ids.map fun idv => fs_getProduct st (jsToPropertyString idv)).filter
          (fun p => !(p == Json.null))) := by
  refine ⟨rfl, ?_, ?_, ?_, ?_, ?_⟩
  · intro st
    refine ⟨?_, ?_, ?_, ?_, ?_, ?_, ?_, ?_, ?_, ?_, ?_, ?_⟩ <;>
      (intro h
       simp [fs_getSiteData, readJsonFile, h, jsTruthy, jsOr])
  · intro t b n s
    exact ⟨rfl, rfl, rfl, rfl⟩
  · intro tfs sfs k h
    show jsObjGet (.obj (mergeFields (jsObjFields (.obj tfs)) sfs)) k = jsObjGet (.obj tfs) k
    simp only [jsObjGet, objLookup, jsObjFields]
    rw [mergeFields_lookup_ne sfs tfs k h]
  · intro st h
    simp [fs_getSiteData, fs_getAllProducts, h]
  · intro st ids h1 h2
    have : (fs_getSiteData st).products = fs_getAllProducts st := rfl
    rw [this, fs_getAllProducts]
    simp only [h1, Bool.not_true, Bool.false_eq_true, if_false, h2]
    cases ids with
    | nil => simp
    | cons a t => simp

theorem getSiteData_tolerates_missing_shards_witness :
    (fs_getSiteData ⟨[("hero.json", "\x7b \"title\": \x7b \"en\": \"T\" \x7d \x7d"),
        ("productIds.json", "[\"a\", \"b\"]"),
        ("products/a.json", "\x7b \"id\": \"a\" \x7d")], ["products"]⟩).settings =
      defaultSettingsJson ∧
    jsObjGet (deepMerge (.obj [("kept", .str "dflt")]) (.obj [("other", .str "x")])) "kept" =
      jsObjGet (Json.obj [("kept", .str "dflt")]) "kept" ∧
    (fs_getSiteData ⟨[("hero.json", "\x7b \"title\": \x7b \"en\": \"T\" \x7d \x7d"),
        ("productIds.json", "[\"a\", \"b\"]"),
        ("products/a.json", "\x7b \"id\": \"a\" \x7d")], ["products"]⟩).products =
      ([Json.str "a", Json.str "b"].map fun idv =>
        fs_getProduct ⟨[("hero.json", "\x7b \"title\": \x7b \"en\": \"T\" \x7d \x7d"),
          ("productIds.json", "[\"a\", \"b\"]"),
          ("products/a.json", "\x7b \"id\": \"a\" \x7d")], ["products"]⟩
          (jsToPropertyString idv)).filter (fun p => !(p == Json.null)) :=
  ⟨(getSiteData_tolerates_missing_shards.2.1 _).1 rfl,
   getSiteData_tolerates_missing_shards.2.2.2.1 [("kept", .str "dflt")] [("other", .str "x")]
     "kept" (by decide),
   getSiteData_tolerates_missing_shards.2.2.2.2.2 _ [Json.str "a", Json.str "b"] rfl rfl⟩

end XingJue
